import Mathlib

/-!
Verification of the Hive-to-Snowflake SQL conversion engine.

The repository implements the engine several times over; the embeddings
below follow the implementations the claims cite:

* `Converter`  — the class `HiveToSnowflakeConverter` of
  `src/converter/index.ts` (preprocessing, statement segmentation,
  per-statement dispatch, the regex-based rewriters).
* `DMLTransformer` — `src/converter/transformers/dmlTransformer.ts`
  (insert/multi-insert fan-out, update-with-join to merge).
* `Lib` — the class `HiveToSnowflakeConverter` of `src/lib/converter.ts`
  (the self-contained pipeline with a warning accumulator).

Strings are modelled as `List Char`.  Each JavaScript regular expression is
embedded as a dedicated scanner over `List Char`; scanning for the leftmost
match position is done by the generic drivers below, and inside one match
the original pattern's pieces are parsed in order.  Greedy pieces such as
`\s+` or `\w+` that are followed by a piece drawing from a disjoint
character class are parsed by maximal munch (for those patterns maximal
munch and backtracking agree); the places where genuine backtracking or
lazy matching is observable (`transformUpdateWithJoin`,
`RANGE BETWEEN ... AND ...`) implement the JavaScript search order
explicitly.  Recursions that advance by a computed amount use a fuel
argument initialised to the input length; every matcher consumes at least
one character, so the fuel is never exhausted.
-/

set_option maxRecDepth 200000

abbrev Chars := List Char

/-- JavaScript `\s` restricted to the ASCII range used by the sources. -/
def wsChar (c : Char) : Bool :=
  c == ' ' || c == '\t' || c == '\n' || c == '\r' || c == '\x0b' || c == '\x0c'

/-- JavaScript `\w`, the class `[A-Za-z0-9_]`. -/
def wordChar (c : Char) : Bool :=
  ('a' ≤ c && c ≤ 'z') || ('A' ≤ c && c ≤ 'Z') || ('0' ≤ c && c ≤ '9') || c == '_'

/-- JavaScript `\d`. -/
def digitChar (c : Char) : Bool := '0' ≤ c && c ≤ '9'

/-- JavaScript `.` without the `s` flag: any character but a line terminator. -/
def dotChar (c : Char) : Bool := !(c == '\n' || c == '\r')

/-- Case-insensitive character comparison (the `i` flag). -/
def ciEq (a b : Char) : Bool := a.toLower == b.toLower

/-- `String.prototype.trim`: whitespace stripped from both ends. -/
def trimChars (s : Chars) : Chars :=
  ((s.dropWhile wsChar).reverse.dropWhile wsChar).reverse

/-- Consume a literal case-insensitively, returning the rest. -/
def litCI : Chars → Chars → Option Chars
  | [], s => some s
  | _ :: _, [] => none
  | p :: ps, c :: cs => if ciEq p c then litCI ps cs else none

/-- Consume a literal case-sensitively, returning the rest. -/
def litCS : Chars → Chars → Option Chars
  | [], s => some s
  | _ :: _, [] => none
  | p :: ps, c :: cs => if p == c then litCS ps cs else none

/-- Maximal run of characters in a class, at least one (`X+` by maximal
munch). -/
def many1 (p : Char → Bool) (s : Chars) : Option (Chars × Chars) :=
  let t := s.takeWhile p
  if t.isEmpty then none else some (t, s.drop t.length)

/-- `\s+` by maximal munch. -/
def ws1 (s : Chars) : Option Chars :=
  (many1 wsChar s).map (fun r => r.2)

/-- `\s*` by maximal munch. -/
def ws0 (s : Chars) : Chars := s.dropWhile wsChar

/-- A matcher: at the current position, the replacement text and the rest of
the input after the matched span (every matcher consumes at least one
character). -/
abbrev Matcher := Chars → Option (Chars × Chars)

/-- Leftmost application of a positional parser, JavaScript `String.match`
without `g`: try each start position left to right. -/
def findFirstMap (f : Chars → Option α) : Chars → Option α
  | [] => none
  | c :: cs =>
    match f (c :: cs) with
    | some r => some r
    | none => findFirstMap f cs

/-- JavaScript `RegExp.test` / truthiness of `String.match`. -/
def testRe (f : Chars → Option α) (s : Chars) : Bool :=
  (findFirstMap f s).isSome

/-- `String.replace` without the `g` flag: replace the leftmost match only. -/
def replaceFirst (f : Matcher) : Chars → Chars
  | [] => []
  | c :: cs =>
    match f (c :: cs) with
    | some (rep, rest) => rep ++ rest
    | none => c :: replaceFirst f cs

/-- `String.replace` with the `g` flag: scanning resumes after each match;
replacement text is not rescanned.  The fuel starts at the input length and
suffices because every matcher consumes at least one character. -/
def replaceAllAux (f : Matcher) : Nat → Chars → Chars
  | _, [] => []
  | 0, s => s
  | n + 1, c :: cs =>
    match f (c :: cs) with
    | some (rep, rest) => rep ++ replaceAllAux f n rest
    | none => c :: replaceAllAux f n cs

def replaceAll (f : Matcher) (s : Chars) : Chars := replaceAllAux f s.length s

/-- Case-sensitive substring test, `String.prototype.includes`. -/
def includesStr (pat : Chars) : Chars → Bool
  | [] => (litCS pat []).isSome
  | c :: cs => (litCS pat (c :: cs)).isSome || includesStr pat cs

/-- `startsWith`, case-sensitively. -/
def startsWithStr (pat s : Chars) : Bool := (litCS pat s).isSome

/-- `parts[parts.length - 1]` for a non-empty list (the empty default is
never reached: `splitBy` always returns at least one part). -/
def lastD : List Chars → Chars
  | [] => []
  | [x] => x
  | _ :: y :: rest => lastD (y :: rest)

/-- `Array.prototype.join`. -/
def joinWith (sep : Chars) : List Chars → Chars
  | [] => []
  | [x] => x
  | x :: y :: rest => x ++ sep ++ joinWith sep (y :: rest)

/-- `String.prototype.split` on a single character (JavaScript
`split(',')`): every part kept, including empty ones. -/
def splitOnChar (sep : Char) : Chars → List Chars
  | [] => [[]]
  | c :: cs =>
    if c == sep then [] :: splitOnChar sep cs
    else
      match splitOnChar sep cs with
      | [] => [[c]]
      | p :: ps => (c :: p) :: ps

/-- The `ConversionResult` record of `src/types/sql.ts` (without the
optional metadata, which only the `SQLParser` class produces): success
flag, optional output text, warnings and errors. -/
structure ConversionResult where
  success : Bool
  sql : Option String
  warnings : List String
  errors : List String

/-- The pattern `/PARTITION\s*\(([^)]+)\)/i` (`HIVE_PATTERNS.DYNAMIC_PARTITION`,
also written inline in both converter classes), with the empty
replacement. -/
def tryPartitionClause (s : Chars) : Option (Chars × Chars) := do
  let r ← litCI "PARTITION".data s
  let r := ws0 r
  let r ← litCS "(".data r
  let (_, r) ← many1 (fun c => !(c == ')')) r
  let r ← litCS ")".data r
  pure ([], r)

/-- A word-boundary-aware matcher: it sees the character preceding the
current position (`none` at the start of the input) and reports the
replacement and the consumed length. -/
abbrev MatcherP := Option Char → Chars → Option (Chars × Nat)

/-- Global replace for boundary-aware matchers.  The predecessor of the
position after a match is the last character of the matched span of the
original text, as with JavaScript's `lastIndex`. -/
def replaceAllPAux (f : MatcherP) : Nat → Option Char → Chars → Chars
  | _, _, [] => []
  | 0, _, s => s
  | n + 1, prev, c :: cs =>
    match f prev (c :: cs) with
    | some (rep, len) =>
      rep ++ replaceAllPAux f n ((c :: cs).take (max 1 len)).getLast?
        ((c :: cs).drop (max 1 len))
    | none => c :: replaceAllPAux f n (some c) cs

def replaceAllP (f : MatcherP) (s : Chars) : Chars :=
  replaceAllPAux f s.length none s

/-- `\bPAT\b` replaced by a fixed text, case-insensitively: the pattern
starts and ends with word characters, so the boundaries hold exactly when
the neighbouring characters are not word characters. -/
def tryWordRepl (pat rep : Chars) (prev : Option Char) (s : Chars) :
    Option (Chars × Nat) :=
  let prevWord := match prev with | some p => wordChar p | none => false
  if prevWord then none
  else
    match litCI pat s with
    | none => none
    | some r =>
      let nextWord := match r.head? with | some nc => wordChar nc | none => false
      if nextWord then none else some (rep, s.length - r.length)

namespace Converter

/-! The class `HiveToSnowflakeConverter` of `src/converter/index.ts`.
Its `warnings` array is initialised empty and no method of the class ever
appends to it, so the accumulator is embedded as the constant `[]`. -/

/-- Scanner state of `splitStatements` (`src/converter/index.ts`, lines
57-119): the accumulated statements, the current statement, the
string/comment flags and the parenthesis depth.  `stringChar` starts as an
arbitrary character; the source initialises it to the empty string, and it
is only ever read after being assigned. -/
structure SplitSt where
  stmts : List Chars
  cur : Chars
  inString : Bool
  stringChar : Char
  inComment : Bool
  inMultilineComment : Bool
  depth : Int

/-- Parenthesis depth (lines 97-100), separator test (lines 103-109) and
the final append (line 111) of one loop iteration, applied to the current
character once the string/comment flags have been updated. -/
def stepChar (c : Char) (st : SplitSt) : SplitSt :=
  let depth1 :=
    if !st.inString && !st.inComment && !st.inMultilineComment then
      if c == '(' then st.depth + 1
      else if c == ')' then st.depth - 1
      else st.depth
    else st.depth
  if c == ';' && !st.inString && !st.inComment && !st.inMultilineComment &&
      depth1 == 0 then
    { st with
      stmts := st.stmts ++
        (if (trimChars st.cur).isEmpty then [] else [trimChars st.cur]),
      cur := [], depth := depth1 }
  else
    { st with cur := st.cur ++ [c], depth := depth1 }

/-- The character loop of `splitStatements`.  One iteration handles the
current character exactly as the source does: string-literal toggling,
then the comment `else if` chain (which reads the updated `inString`),
then `stepChar` for the depth/separator/append steps.  `i++` inside the
loop is `rest.drop 1`; `continue` skips the remaining steps of the
iteration.  Fuel = input length (each iteration consumes at least one
character). -/
def splitLoop : Nat → Chars → SplitSt → SplitSt
  | 0, _, st => st
  | _, [], st => st
  | n + 1, c :: rest, st =>
    let next? := rest.head?
    -- string literals (lines 71-78)
    let quote := c == '\'' || c == '"'
    let openStr := quote && !st.inComment && !st.inMultilineComment && !st.inString
    let closeStr := quote && !st.inComment && !st.inMultilineComment &&
      st.inString && c == st.stringChar
    let inString1 := if openStr then true else if closeStr then false else st.inString
    let stringChar1 := if openStr then c else st.stringChar
    let st1 := { st with inString := inString1, stringChar := stringChar1 }
    -- comments (lines 81-94), an else-if chain guarded by the updated inString
    if !inString1 && c == '-' && next? == some '-' then
      splitLoop n rest (stepChar c { st1 with inComment := true })
    else if !inString1 && c == '/' && next? == some '*' then
      -- opens a block comment and skips the next character (i++)
      splitLoop n (rest.drop 1) (stepChar c { st1 with inMultilineComment := true })
    else if !inString1 && c == '*' && next? == some '/' && st.inMultilineComment then
      -- closes a block comment, skips the next character and continues
      splitLoop n (rest.drop 1) { st1 with inMultilineComment := false }
    else if !inString1 && c == '\n' && st.inComment then
      splitLoop n rest (stepChar c { st1 with inComment := false })
    else
      splitLoop n rest (stepChar c st1)

/-- `splitStatements` (`src/converter/index.ts`, lines 57-119): the loop
above, then the trailing statement, then the final non-empty filter. -/
def splitStatementsCore (s : Chars) : List Chars :=
  let fin := splitLoop s.length s
    { stmts := [], cur := [], inString := false, stringChar := ' ',
      inComment := false, inMultilineComment := false, depth := 0 }
  let stmts := fin.stmts ++
    (if (trimChars fin.cur).isEmpty then [] else [trimChars fin.cur])
  stmts.filter (fun st => st.length > 0)

def splitStatements (s : String) : List String :=
  (splitStatementsCore s.data).map (fun cs => String.mk cs)

/-! #### `preprocessSQL` (lines 44-55) -/

/-- `/^SET\s+[^;]+;/` at one position (no `i` flag: case-sensitive). -/
def trySetStatement (s : Chars) : Option Chars := do
  let r ← litCS "SET".data s
  let r ← ws1 r
  let (_, r) ← many1 (fun c => !(c == ';')) r
  litCS ";".data r

/-- `replace(/^SET\s+[^;]+;/gm, '')`: the `m` flag restricts match starts
to position 0 or just after a line terminator; a match ends with `;`, so
scanning resumes at a non-anchored position.  Fuel = input length. -/
def removeSetLinesAux : Nat → Bool → Chars → Chars
  | _, _, [] => []
  | 0, _, s => s
  | n + 1, atStart, c :: cs =>
    if atStart then
      match trySetStatement (c :: cs) with
      | some rest => removeSetLinesAux n false rest
      | none => c :: removeSetLinesAux n (c == '\n' || c == '\r') cs
    else c :: removeSetLinesAux n (c == '\n' || c == '\r') cs

def removeSetLines (s : Chars) : Chars := removeSetLinesAux s.length true s

/-- `/\/\*\+\s*(?:MAPJOIN|STREAMTABLE|BROADCAST)\([^)]*\)\s*\*\//g`
(case-sensitive), with the empty replacement. -/
def tryHiveHint (s : Chars) : Option (Chars × Chars) := do
  let r ← litCS "/*+".data s
  let r := ws0 r
  let r ← litCS "MAPJOIN".data r <|> litCS "STREAMTABLE".data r <|>
    litCS "BROADCAST".data r
  let r ← litCS "(".data r
  let r := r.dropWhile (fun c => !(c == ')'))
  let r ← litCS ")".data r
  let r := ws0 r
  let r ← litCS "*/".data r
  pure ([], r)

/-- The global pattern `--\s*#####` replaced by `--` (line 52). -/
def tryHashMarks (s : Chars) : Option (Chars × Chars) := do
  let r ← litCS "--".data s
  let r := ws0 r
  let r ← litCS "#####".data r
  pure ("--".data, r)

def preprocessSQL (sql : Chars) : Chars :=
  replaceAll tryHashMarks (replaceAll tryHiveHint (removeSetLines sql))

/-! #### dispatch tests of `convertStatement` (lines 121-139) -/

/-- `/CREATE\s+(?:EXTERNAL\s+)?TABLE/i`.  If `EXTERNAL\s+` matches, `TABLE`
cannot match at the same spot without it, so no further backtracking is
needed. -/
def matchCreateTableTest (s : Chars) : Option Unit := do
  let r ← litCI "CREATE".data s
  let r ← ws1 r
  let r :=
    match (do
        let t ← litCI "EXTERNAL".data r
        ws1 t) with
    | some t => t
    | none => r
  let _ ← litCI "TABLE".data r
  pure ()

/-- `/INSERT\s+(?:INTO|OVERWRITE)/i`. -/
def matchInsertTest (s : Chars) : Option Unit := do
  let r ← litCI "INSERT".data s
  let r ← ws1 r
  let _ ← litCI "INTO".data r <|> litCI "OVERWRITE".data r
  pure ()

/-- `/WITH\s+\w+\s+AS/i`. -/
def matchWithTest (s : Chars) : Option Unit := do
  let r ← litCI "WITH".data s
  let r ← ws1 r
  let (_, r) ← many1 wordChar r
  let r ← ws1 r
  let _ ← litCI "AS".data r
  pure ()

/-! #### `convertCreateTable` (lines 141-180) -/

/-- `IF\s+NOT\s+EXISTS\s+`, the optional group of the header pattern. -/
def ifNotExistsSeq (s : Chars) : Option Chars := do
  let r ← litCI "IF".data s
  let r ← ws1 r
  let r ← litCI "NOT".data r
  let r ← ws1 r
  let r ← litCI "EXISTS".data r
  ws1 r

/-- `(?:IF\s+NOT\s+EXISTS\s+)?(\w+)` with the header replacement: the
group is greedy, and on a failure of the capture after it the word is
captured without the group (so a trailing `IF` would itself be captured,
as in JavaScript). -/
def ifNotExistsThenName (r : Chars) : Option (Chars × Chars) :=
  match (do
      let t ← ifNotExistsSeq r
      let (name, rest) ← many1 wordChar t
      pure ("CREATE OR REPLACE TABLE ".data ++ name, rest)) with
  | some v => some v
  | none => do
    let (name, rest) ← many1 wordChar r
    pure ("CREATE OR REPLACE TABLE ".data ++ name, rest)

/-- `/CREATE\s+(?:EXTERNAL\s+)?TABLE\s+(?:IF\s+NOT\s+EXISTS\s+)?(\w+)/i` →
`'CREATE OR REPLACE TABLE $1'` (lines 143-146). -/
def tryCreateHeader (s : Chars) : Option (Chars × Chars) := do
  let r ← litCI "CREATE".data s
  let r ← ws1 r
  let r :=
    match (do
        let t ← litCI "EXTERNAL".data r
        ws1 t) with
    | some t => t
    | none => r
  let r ← litCI "TABLE".data r
  let r ← ws1 r
  ifNotExistsThenName r

/-- `/PARTITIONED\s+BY\s*\(([^)]+)\)/i`: the inner capture and the rest
after the span. -/
def matchPartitionedBy (s : Chars) : Option (Chars × Chars) := do
  let r ← litCI "PARTITIONED".data s
  let r ← ws1 r
  let r ← litCI "BY".data r
  let r := ws0 r
  let r ← litCS "(".data r
  let (inner, r) ← many1 (fun c => !(c == ')')) r
  let r ← litCS ")".data r
  pure (inner, r)

/-- `partitionMatch[1].split(',').map(col => col.trim().split(/\s+/)[0])`
(lines 151-153): the first whitespace-delimited token of each
comma-separated column description. -/
def partitionCols (inner : Chars) : List Chars :=
  (splitOnChar ',' inner).map (fun col =>
    (trimChars col).takeWhile (fun c => !wsChar c))

/-- `/CLUSTERED\s+BY\s*\(([^)]+)\)/i`: inner capture and rest. -/
def matchClusteredBy (s : Chars) : Option (Chars × Chars) := do
  let r ← litCI "CLUSTERED".data s
  let r ← ws1 r
  let r ← litCI "BY".data r
  let r := ws0 r
  let r ← litCS "(".data r
  let (inner, r) ← many1 (fun c => !(c == ')')) r
  let r ← litCS ")".data r
  pure (inner, r)

/-- `/CLUSTERED\s+BY\s*\([^)]+\)\s+INTO\s+\d+\s+BUCKETS/i` (line 164):
the replaced span of the bucket form. -/
def tryClusteredBuckets (rep : Chars) (s : Chars) : Option (Chars × Chars) := do
  let (_, r) ← matchClusteredBy s
  let r ← ws1 r
  let r ← litCI "INTO".data r
  let r ← ws1 r
  let (_, r) ← many1 digitChar r
  let r ← ws1 r
  let r ← litCI "BUCKETS".data r
  pure (rep, r)

/-- `/STORED\s+AS\s+\w+/gi` with the empty replacement. -/
def tryStoredAs (s : Chars) : Option (Chars × Chars) := do
  let r ← litCI "STORED".data s
  let r ← ws1 r
  let r ← litCI "AS".data r
  let r ← ws1 r
  let (_, r) ← many1 wordChar r
  pure ([], r)

/-- `/ROW\s+FORMAT\s+[^;]+/gi` with the empty replacement. -/
def tryRowFormat (s : Chars) : Option (Chars × Chars) := do
  let r ← litCI "ROW".data s
  let r ← ws1 r
  let r ← litCI "FORMAT".data r
  let r ← ws1 r
  let (_, r) ← many1 (fun c => !(c == ';')) r
  pure ([], r)

/-- `('[^']+'|"[^"]+")`: a quoted location string, single quotes tried
first. -/
def quotedString (s : Chars) : Option Chars := do
  match (do
      let r ← litCS ['\''] s
      let (_, r) ← many1 (fun c => !(c == '\'')) r
      litCS ['\''] r) with
  | some r => some r
  | none => do
    let r ← litCS ['"'] s
    let (_, r) ← many1 (fun c => !(c == '"')) r
    litCS ['"'] r

/-- `/LOCATION\s+('[^']+'|"[^"]+")/gi` with the empty replacement. -/
def tryLocationClause (s : Chars) : Option (Chars × Chars) := do
  let r ← litCI "LOCATION".data s
  let r ← ws1 r
  let r ← quotedString r
  pure ([], r)

/-- `/TBLPROPERTIES\s*\([^)]*\)/gi` with the empty replacement. -/
def tryTblProperties (s : Chars) : Option (Chars × Chars) := do
  let r ← litCI "TBLPROPERTIES".data s
  let r := ws0 r
  let r ← litCS "(".data r
  let r := r.dropWhile (fun c => !(c == ')'))
  let r ← litCS ")".data r
  pure ([], r)

/-! #### `convertDataTypes` (lines 284-301): a chain of global replaces
with no word boundaries. -/

/-- A case-insensitive literal with a fixed replacement. -/
def tryLitRepl (pat rep : Chars) (s : Chars) : Option (Chars × Chars) :=
  (litCI pat s).map (fun rest => (rep, rest))

/-- `/INT|INTEGER/gi`: `INT` is the left alternative, so it always wins
(`INTEGER` starts with `INT` and is unreachable; kept for fidelity). -/
def tryIntRepl (s : Chars) : Option (Chars × Chars) :=
  match litCI "INT".data s with
  | some rest => some ("NUMBER(38,0)".data, rest)
  | none => (litCI "INTEGER".data s).map (fun rest => ("NUMBER(38,0)".data, rest))

/-- `/DECIMAL\(([^)]+)\)/gi` → `'NUMBER($1)'`. -/
def tryDecimalRepl (s : Chars) : Option (Chars × Chars) := do
  let r ← litCI "DECIMAL".data s
  let r ← litCS "(".data r
  let (inner, r) ← many1 (fun c => !(c == ')')) r
  let r ← litCS ")".data r
  pure ("NUMBER(".data ++ inner ++ ")".data, r)

/-- `/ARRAY\s*<[^>]+>/gi` and the `MAP`/`STRUCT` variants. -/
def tryAngleType (pat rep : Chars) (s : Chars) : Option (Chars × Chars) := do
  let r ← litCI pat s
  let r := ws0 r
  let r ← litCS "<".data r
  let (_, r) ← many1 (fun c => !(c == '>')) r
  let r ← litCS ">".data r
  pure (rep, r)

def convertDataTypes (sql : Chars) : Chars :=
  let sql := replaceAll (tryLitRepl "STRING".data "VARCHAR".data) sql
  let sql := replaceAll tryIntRepl sql
  let sql := replaceAll (tryLitRepl "BIGINT".data "NUMBER(38,0)".data) sql
  let sql := replaceAll (tryLitRepl "SMALLINT".data "NUMBER(5,0)".data) sql
  let sql := replaceAll (tryLitRepl "TINYINT".data "NUMBER(3,0)".data) sql
  let sql := replaceAll (tryLitRepl "DOUBLE".data "DOUBLE".data) sql
  let sql := replaceAll (tryLitRepl "FLOAT".data "FLOAT".data) sql
  let sql := replaceAll (tryLitRepl "BOOLEAN".data "BOOLEAN".data) sql
  let sql := replaceAll (tryLitRepl "BINARY".data "BINARY".data) sql
  let sql := replaceAll (tryLitRepl "TIMESTAMP".data "TIMESTAMP_NTZ".data) sql
  let sql := replaceAll (tryLitRepl "DATE".data "DATE".data) sql
  let sql := replaceAll tryDecimalRepl sql
  let sql := replaceAll (tryAngleType "ARRAY".data "ARRAY".data) sql
  let sql := replaceAll (tryAngleType "MAP".data "OBJECT".data) sql
  replaceAll (tryAngleType "STRUCT".data "OBJECT".data) sql

/-- `convertCreateTable` (lines 141-180): header rewrite, partition fold,
bucket removal, storage-clause stripping, then the type chain. -/
def convertCreateTable (sql : Chars) : Chars :=
  let sql := replaceFirst tryCreateHeader sql
  let sql :=
    match findFirstMap matchPartitionedBy sql with
    | some (inner, _) =>
      let cols := partitionCols inner
      replaceFirst
        (fun s => (matchPartitionedBy s).map (fun p =>
          ("CLUSTER BY (".data ++ joinWith ", ".data cols ++ ")".data, p.2)))
        sql
    | none => sql
  let sql :=
    match findFirstMap matchClusteredBy sql with
    | some (inner, _) =>
      replaceFirst
        (tryClusteredBuckets ("CLUSTER BY (".data ++ inner ++ ")".data)) sql
    | none => sql
  let sql := replaceAll tryStoredAs sql
  let sql := replaceAll tryRowFormat sql
  let sql := replaceAll tryLocationClause sql
  let sql := replaceAll tryTblProperties sql
  convertDataTypes sql

/-! #### `convertFunctions` (lines 233-261) -/

/-- `/unix_timestamp\(([^)]*)\)/gi` with the argument-dependent
replacement (an empty capture is falsy). -/
def tryUnixTimestamp (s : Chars) : Option (Chars × Chars) := do
  let r ← litCI "unix_timestamp".data s
  let r ← litCS "(".data r
  let args := r.takeWhile (fun c => !(c == ')'))
  let r := r.drop args.length
  let r ← litCS ")".data r
  if args.isEmpty then
    pure ("date_part('epoch', current_timestamp())".data, r)
  else
    pure ("date_part('epoch', ".data ++ args ++ ")".data, r)

/-- `/date_add\(([^,]+),\s*(\d+)\)/gi` → `'dateadd(day, $2, $1)'`, and the
`date_sub` variant with a negated count. -/
def tryDateShift (name : Chars) (neg : Bool) (s : Chars) : Option (Chars × Chars) := do
  let r ← litCI name s
  let r ← litCS "(".data r
  let (arg, r) ← many1 (fun c => !(c == ',')) r
  let r ← litCS ",".data r
  let r := ws0 r
  let (d, r) ← many1 digitChar r
  let r ← litCS ")".data r
  pure ("dateadd(day, ".data ++ (if neg then "-".data else []) ++ d ++
    ", ".data ++ arg ++ ")".data, r)

/-- `/collect_set\(([^)]+)\)/gi` → `'array_agg(DISTINCT $1)'`, and the
`collect_list` variant. -/
def tryCollect (name pre : Chars) (s : Chars) : Option (Chars × Chars) := do
  let r ← litCI name s
  let r ← litCS "(".data r
  let (arg, r) ← many1 (fun c => !(c == ')')) r
  let r ← litCS ")".data r
  pure (pre ++ arg ++ ")".data, r)

/-- `/get_json_object\(([^,]+),\s*([^)]+)\)/gi` →
`'get_path(parse_json($1), $2)'`. -/
def tryGetJsonObject (s : Chars) : Option (Chars × Chars) := do
  let r ← litCI "get_json_object".data s
  let r ← litCS "(".data r
  let (arg1, r) ← many1 (fun c => !(c == ',')) r
  let r ← litCS ",".data r
  let r := ws0 r
  let (arg2, r) ← many1 (fun c => !(c == ')')) r
  let r ← litCS ")".data r
  pure ("get_path(parse_json(".data ++ arg1 ++ "), ".data ++ arg2 ++ ")".data, r)

def convertFunctions (sql : Chars) : Chars :=
  let sql := replaceAll tryUnixTimestamp sql
  let sql := replaceAll (tryDateShift "date_add".data false) sql
  let sql := replaceAll (tryDateShift "date_sub".data true) sql
  let sql := replaceAll (tryCollect "collect_set".data "array_agg(DISTINCT ".data) sql
  let sql := replaceAll (tryCollect "collect_list".data "array_agg(".data) sql
  replaceAll tryGetJsonObject sql

/-! #### `convertWindowFunctions` (lines 263-282) -/

/-- `PRECEDING\s+AND\s+CURRENT\s+ROW`. -/
def framePAC (s : Chars) : Option Chars := do
  let r ← litCI "PRECEDING".data s
  let r ← ws1 r
  let r ← litCI "AND".data r
  let r ← ws1 r
  let r ← litCI "CURRENT".data r
  let r ← ws1 r
  litCI "ROW".data r

/-- `/RANGE\s+BETWEEN\s+(\d+)\s+PRECEDING\s+AND\s+CURRENT\s+ROW/gi` →
`'ROWS BETWEEN $1 PRECEDING AND CURRENT ROW'`, and the `ROWS` variant of
line 276 with the identical replacement. -/
def tryFrame (kw : Chars) (s : Chars) : Option (Chars × Chars) := do
  let r ← litCI kw s
  let r ← ws1 r
  let r ← litCI "BETWEEN".data r
  let r ← ws1 r
  let (d, r) ← many1 digitChar r
  let r ← ws1 r
  let r ← framePAC r
  pure ("ROWS BETWEEN ".data ++ d ++ " PRECEDING AND CURRENT ROW".data, r)

/-- `/OVER\s*\(([^)]+)\)/gi` with the callback that rewrites the frame
clauses of the contents and re-wraps them in `OVER (…)`. -/
def tryOverClause (s : Chars) : Option (Chars × Chars) := do
  let r ← litCI "OVER".data s
  let r := ws0 r
  let r ← litCS "(".data r
  let (contents, r) ← many1 (fun c => !(c == ')')) r
  let r ← litCS ")".data r
  let inner := replaceAll (tryFrame "ROWS".data)
    (replaceAll (tryFrame "RANGE".data) contents)
  pure ("OVER (".data ++ inner ++ ")".data, r)

def convertWindowFunctions (sql : Chars) : Chars :=
  replaceAll tryOverClause sql

/-! #### `convertSelect`, `convertInsert`, `convertWithClause`,
`convertStatement`, `convert` (lines 121-231, 14-42) -/

/-- `LATERAL\s+VIEW\s+(?:OUTER\s+)?EXPLODE\s*\(` of the lateral-view
pattern (line 214): everything before the argument capture. -/
def lateralHead (s : Chars) : Option Chars := do
  let r ← litCI "LATERAL".data s
  let r ← ws1 r
  let r ← litCI "VIEW".data r
  let r ← ws1 r
  let r :=
    match (do
        let t ← litCI "OUTER".data r
        ws1 t) with
    | some t => t
    | none => r
  let r ← litCI "EXPLODE".data r
  litCS "(".data (ws0 r)

/-- `([^)]+)\)\s+(\w+)\s+AS\s+(\w+)` with the flatten replacement. -/
def lateralTail (r : Chars) : Option (Chars × Chars) := do
  let (arg, r) ← many1 (fun c => !(c == ')')) r
  let r ← litCS ")".data r
  let r ← ws1 r
  let (al, r) ← many1 wordChar r
  let r ← ws1 r
  let r ← litCI "AS".data r
  let r ← ws1 r
  let (col, r) ← many1 wordChar r
  pure ("CROSS JOIN TABLE(FLATTEN(input => ".data ++ arg ++ ")) AS ".data ++
    al ++ "(".data ++ col ++ ")".data, r)

/-- The full lateral-view replacement
(`/LATERAL\s+VIEW\s+(?:OUTER\s+)?EXPLODE\s*\(([^)]+)\)\s+(\w+)\s+AS\s+(\w+)/gi`). -/
def tryLateralView (s : Chars) : Option (Chars × Chars) := do
  let r ← lateralHead s
  lateralTail r

/-- `/DISTRIBUTE\s+BY/gi` → `'ORDER BY'` and `/SORT\s+BY/gi` →
`'ORDER BY'`. -/
def tryKwByOrder (kw : Chars) (s : Chars) : Option (Chars × Chars) := do
  let r ← litCI kw s
  let r ← ws1 r
  let r ← litCI "BY".data r
  pure ("ORDER BY".data, r)

def convertSelect (sql : Chars) : Chars :=
  let sql := replaceAll tryLateralView sql
  let sql := replaceAll (tryKwByOrder "DISTRIBUTE".data) sql
  let sql := replaceAll (tryKwByOrder "SORT".data) sql
  convertWindowFunctions (convertFunctions sql)

/-- `(?:TABLE\s+)?(\w+)` with an insert-head replacement: the greedy
`TABLE` group, with the capture retried without it on failure. -/
def tableOptName (pre : Chars) (r : Chars) : Option (Chars × Chars) :=
  match (do
      let t ← litCI "TABLE".data r
      let t ← ws1 t
      let (name, rest) ← many1 wordChar t
      pure (pre ++ name, rest)) with
  | some v => some v
  | none => do
    let (name, rest) ← many1 wordChar r
    pure (pre ++ name, rest)

/-- `/INSERT\s+OVERWRITE\s+(?:TABLE\s+)?(\w+)/i` →
`'INSERT OVERWRITE INTO $1'` (lines 184-187). -/
def tryInsertOverwriteName (s : Chars) : Option (Chars × Chars) := do
  let r ← litCI "INSERT".data s
  let r ← ws1 r
  let r ← litCI "OVERWRITE".data r
  let r ← ws1 r
  tableOptName "INSERT OVERWRITE INTO ".data r

/-- `/INSERT\s+INTO\s+(?:TABLE\s+)?(\w+)/i` → `'INSERT INTO $1'`
(lines 190-193). -/
def tryInsertIntoName (s : Chars) : Option (Chars × Chars) := do
  let r ← litCI "INSERT".data s
  let r ← ws1 r
  let r ← litCI "INTO".data r
  let r ← ws1 r
  tableOptName "INSERT INTO ".data r

/-- `convertInsert` (lines 182-199): first-match replacements (no `g`
flag), then the shared select path. -/
def convertInsert (sql : Chars) : Chars :=
  let sql := replaceFirst tryInsertOverwriteName sql
  let sql := replaceFirst tryInsertIntoName sql
  let sql := replaceFirst tryPartitionClause sql
  convertSelect sql

/-- `convertWithClause` (lines 201-209). -/
def convertWithClause (sql : Chars) : Chars :=
  convertWindowFunctions (convertFunctions sql)

/-- `convertStatement` (lines 121-139). -/
def convertStatement (sql : Chars) : Chars :=
  if testRe matchCreateTableTest sql then convertCreateTable sql
  else if testRe matchInsertTest sql then convertInsert sql
  else if testRe matchWithTest sql then convertWithClause sql
  else convertSelect sql

/-- Modelled from the spec: `formatSQL` (lines 303-310) calls the external
`sql-formatter` package, which is not part of this repository.  Per §4.8
formatting is "strictly cosmetic, applied last, never alters semantics"
and "a formatting failure degrades to returning the correct but
unformatted text plus a warning — never a hard error"; it is modelled as
the identity. -/
def formatSQL (sql : Chars) : Chars := sql

/-- `convert` (lines 14-42).  The class's `warnings` array is never
appended to by any of its methods, so the result's warning list is the
constant `[]`; no step of the pipeline throws, so the catch branch is
unreachable and the result always has `success = true`. -/
def convert (input : String) : ConversionResult :=
  let sql := preprocessSQL input.data
  let statements := splitStatementsCore sql
  let converted := (statements.filter (fun st => !(trimChars st).isEmpty)).map
    (fun st => convertStatement (trimChars st))
  let finalSQL := formatSQL (joinWith "\n\n".data converted)
  { success := true, sql := some (String.mk finalSQL), warnings := [], errors := [] }

end Converter

/-! Reference statement segmenter, following the specification's words
(§4.1): a left-to-right scan with an active-quote state, a line-comment
state (`--` until newline), a block-comment state (`/*` until the matching
`*/`); a semicolon separates only in the normal state at depth 0;
unterminated quotes or block comments at end-of-input are a fatal lexical
error; empty statements after trimming are discarded. -/

inductive SpecMode where
  | normal
  | str (q : Char)
  | lineC
  | blockC
deriving DecidableEq

/-- One pass of the reference segmenter.  Returns `none` on an unterminated
string or block comment.  Fuel = input length (each step consumes at least
one character). -/
def specLoop : Nat → Chars → SpecMode → Int → Chars → List Chars → Option (List Chars)
  | _, [], SpecMode.normal, _, cur, acc =>
    some (acc ++ (if (trimChars cur).isEmpty then [] else [trimChars cur]))
  | _, [], SpecMode.lineC, _, cur, acc =>
    some (acc ++ (if (trimChars cur).isEmpty then [] else [trimChars cur]))
  | _, [], SpecMode.str _, _, _, _ => none
  | _, [], SpecMode.blockC, _, _, _ => none
  | 0, _ :: _, _, _, _, _ => none
  | n + 1, c :: rest, SpecMode.normal, depth, cur, acc =>
    if c == ';' && depth == 0 then
      specLoop n rest SpecMode.normal depth []
        (acc ++ (if (trimChars cur).isEmpty then [] else [trimChars cur]))
    else if c == '\'' || c == '"' then
      specLoop n rest (SpecMode.str c) depth (cur ++ [c]) acc
    else if c == '-' && rest.head? == some '-' then
      specLoop n (rest.drop 1) SpecMode.lineC depth (cur ++ [c, '-']) acc
    else if c == '/' && rest.head? == some '*' then
      specLoop n (rest.drop 1) SpecMode.blockC depth (cur ++ [c, '*']) acc
    else if c == '(' then
      specLoop n rest SpecMode.normal (depth + 1) (cur ++ [c]) acc
    else if c == ')' then
      specLoop n rest SpecMode.normal (depth - 1) (cur ++ [c]) acc
    else
      specLoop n rest SpecMode.normal depth (cur ++ [c]) acc
  | n + 1, c :: rest, SpecMode.str q, depth, cur, acc =>
    if c == q then specLoop n rest SpecMode.normal depth (cur ++ [c]) acc
    else specLoop n rest (SpecMode.str q) depth (cur ++ [c]) acc
  | n + 1, c :: rest, SpecMode.lineC, depth, cur, acc =>
    if c == '\n' then specLoop n rest SpecMode.normal depth (cur ++ [c]) acc
    else specLoop n rest SpecMode.lineC depth (cur ++ [c]) acc
  | n + 1, c :: rest, SpecMode.blockC, depth, cur, acc =>
    if c == '*' && rest.head? == some '/' then
      specLoop n (rest.drop 1) SpecMode.normal depth (cur ++ [c, '/']) acc
    else specLoop n rest SpecMode.blockC depth (cur ++ [c]) acc

/-- The reference segmentation of an input, `none` when the input ends
inside a string literal or a block comment. -/
def specSplitStatements (s : String) : Option (List String) :=
  (specLoop s.data.length s.data SpecMode.normal 0 [] []).map
    (fun segs => segs.map (fun cs => String.mk cs))

/-! ### Generic non-overlapping match scanning

`String.split`, `String.match` with the `g` flag and the derived counting
all use the same scan: the leftmost match, then the next leftmost match
after its end, and so on.  A `LenMatcher` gives the length of the match at
the current position.  `max 1 L` mirrors the engine's guarantee of
progress; every matcher used here consumes at least one character, so the
`max` never changes the value. -/

abbrev LenMatcher := Chars → Option Nat

/-- `String.split(regex)`: the parts between the non-overlapping matches,
empty parts kept (JavaScript keeps them, and `split` ignores the absence
of the `g` flag).  Fuel = input length. -/
def splitByAux (m : LenMatcher) : Nat → Chars → List Chars
  | _, [] => [[]]
  | 0, s => [s]
  | n + 1, c :: cs =>
    match m (c :: cs) with
    | some L => [] :: splitByAux m n ((c :: cs).drop (max 1 L))
    | none =>
      match splitByAux m n cs with
      | [] => [[c]]
      | p :: ps => (c :: p) :: ps

def splitBy (m : LenMatcher) (s : Chars) : List Chars := splitByAux m s.length s

/-- `(s.match(regex-with-g) || []).length`: the number of non-overlapping
matches. -/
def countByAux (m : LenMatcher) : Nat → Chars → Nat
  | _, [] => 0
  | 0, _ => 0
  | n + 1, c :: cs =>
    match m (c :: cs) with
    | some L => countByAux m n ((c :: cs).drop (max 1 L)) + 1
    | none => countByAux m n cs

def countBy (m : LenMatcher) (s : Chars) : Nat := countByAux m s.length s

/-- The text before the first match and the text after it, `none` when the
pattern does not occur.  This is the specification-side notion of "the
text before the first occurrence". -/
def firstSplitBy (m : LenMatcher) : Chars → Option (Chars × Chars)
  | [] => none
  | c :: cs =>
    match m (c :: cs) with
    | some L => some ([], (c :: cs).drop (max 1 L))
    | none => (firstSplitBy m cs).map (fun p => (c :: p.1, p.2))

/-- The text after the last non-overlapping match, `none` when the pattern
does not occur: the specification-side notion of "the text after the last
occurrence".  Fuel = input length (each match removes at least one
character). -/
def afterLastByAux (m : LenMatcher) : Nat → Chars → Option Chars
  | 0, _ => none
  | n + 1, s =>
    match firstSplitBy m s with
    | none => none
    | some (_, rest) => some ((afterLastByAux m n rest).getD rest)

def afterLastBy (m : LenMatcher) (s : Chars) : Option Chars :=
  afterLastByAux m s.length s

namespace DMLTransformer

/-! `src/converter/transformers/dmlTransformer.ts` and the patterns of
`src/converter/hivePatterns.ts` it matches against. -/

/-- `HIVE_PATTERNS.INSERT_OVERWRITE`,
`/INSERT\s+OVERWRITE\s+(?:TABLE\s+)?([^\s(]+)/i`, as a positional test.
The optional `TABLE` group is greedy: the branch that consumes it is tried
first, and on its failure the capture class is retried without it. -/
def matchInsertOverwrite (s : Chars) : Option Unit := do
  let r ← litCI "INSERT".data s
  let r ← ws1 r
  let r ← litCI "OVERWRITE".data r
  let r ← ws1 r
  let tokenCls := fun c => !wsChar c && !(c == '(')
  match (do
      let t ← litCI "TABLE".data r
      let t ← ws1 t
      let _ ← many1 tokenCls t
      pure ()) with
  | some u => some u
  | none => do
    let _ ← many1 tokenCls r
    pure ()

/-- The replacement `/INSERT\s+OVERWRITE\s+(?:TABLE\s+)?/i` →
`'INSERT OVERWRITE INTO '` (line 7 of `dmlTransformer.ts`). -/
def tryInsertOverwriteHead (s : Chars) : Option (Chars × Chars) := do
  let r ← litCI "INSERT".data s
  let r ← ws1 r
  let r ← litCI "OVERWRITE".data r
  let r ← ws1 r
  let rest :=
    match (do
        let t ← litCI "TABLE".data r
        ws1 t) with
    | some t => t
    | none => r
  pure ("INSERT OVERWRITE INTO ".data, rest)

/-- `HIVE_PATTERNS.MULTI_INSERT`,
`/FROM\s+([^\s]+)\s+INSERT\s+(?:OVERWRITE|INTO)/i`, as a positional
test. -/
def matchMultiInsert (s : Chars) : Option Unit := do
  let r ← litCI "FROM".data s
  let r ← ws1 r
  let (_, r) ← many1 (fun c => !wsChar c) r
  let r ← ws1 r
  let r ← litCI "INSERT".data r
  let r ← ws1 r
  match litCI "OVERWRITE".data r with
  | some _ => pure ()
  | none => do
    let _ ← litCI "INTO".data r
    pure ()

/-- `sql.match(/FROM\s+([^\s]+)\s+/i)`: the captured source-table token of
`transformMultiInsert` (line 27).  Note the trailing `\s+`: a match needs
whitespace after the token. -/
def matchFromClause (s : Chars) : Option Chars := do
  let r ← litCI "FROM".data s
  let r ← ws1 r
  let (tok, r) ← many1 (fun c => !wsChar c) r
  let _ ← ws1 r
  pure tok

/-- The split separator `/INSERT\s+(?:INTO|OVERWRITE)/i` of
`transformMultiInsert` (line 31), as a length matcher; the left
alternative `INTO` is tried first. -/
def matchInsertKeyword (s : Chars) : Option Nat := do
  let r ← litCI "INSERT".data s
  let r ← ws1 r
  match litCI "INTO".data r with
  | some r2 => pure (s.length - r2.length)
  | none => do
    let r2 ← litCI "OVERWRITE".data r
    pure (s.length - r2.length)

/-- `transformMultiInsert` (lines 25-39): capture the source table, split
on the insert keyword, drop the leading part and reassemble each clause
with the source table appended, joined by `;\n\n`. -/
def transformMultiInsertCore (sql : Chars) : Chars :=
  match findFirstMap matchFromClause sql with
  | none => sql
  | some sourceTable =>
    let insertClauses := (splitBy matchInsertKeyword sql).drop 1
    joinWith ";\n\n".data (insertClauses.map (fun clause =>
      let t := trimChars clause
      let isOverwrite := startsWithStr "OVERWRITE".data t
      "INSERT ".data ++
        (if isOverwrite then "OVERWRITE INTO".data else "INTO".data) ++
        " ".data ++ t ++ "\nFROM ".data ++ sourceTable))

/-- `transformInsert` (lines 4-23): rewrite the overwrite head, drop the
first partition clause, then fan out a multi-insert. -/
def transformInsertCore (sql : Chars) : Chars :=
  let sql :=
    if testRe matchInsertOverwrite sql then
      replaceFirst tryInsertOverwriteHead sql
    else sql
  let sql :=
    if testRe tryPartitionClause sql then
      replaceFirst tryPartitionClause sql
    else sql
  if testRe matchMultiInsert sql then transformMultiInsertCore sql else sql

def transformInsert (sql : String) : String :=
  String.mk (transformInsertCore sql.data)

/-- `(.+)$`: non-empty, no line terminator, to the end of the input. -/
def dotToEnd (s : Chars) : Option Chars :=
  if s.isEmpty then none else if s.all dotChar then some s else none

/-- Greedy `\s+` followed by a continuation: the longest whitespace run is
tried first, then shorter non-empty ones, as backtracking does. -/
def greedyWs1From (k : Chars → Option α) : Nat → Chars → Option α
  | 0, _ => none
  | n + 1, s =>
    match k (s.drop (n + 1)) with
    | some r => some r
    | none => greedyWs1From k n s

def greedyWs1 (k : Chars → Option α) (s : Chars) : Option α :=
  greedyWs1From k (s.takeWhile wsChar).length s

/-- `\s+WHERE\s+(.+)$` of the update-join regex.  The `\s+` before `WHERE`
is deterministic (maximal munch, `W` is not whitespace); the one after is
greedy with backtracking into the dot capture. -/
def whereTail (s : Chars) : Option Chars := do
  let r ← ws1 s
  let r ← litCI "WHERE".data r
  greedyWs1 dotToEnd r

/-- `(.+?)(?:\s+WHERE\s+(.+))?$`: the lazy capture grows one character at a
time; at each split the `WHERE` branch is tried first (greedy `?`), and
the empty branch succeeds only at the end of the input. -/
def setSplit : Chars → Chars → Option (Chars × Option Chars)
  | _, [] => none
  | acc, c :: rest =>
    if dotChar c then
      let acc1 := acc ++ [c]
      match whereTail rest with
      | some w => some (acc1, some w)
      | none =>
        if rest.isEmpty then some (acc1, none) else setSplit acc1 rest
    else none

/-- `\s+SET\s+` followed by the set/where tail.  The `\s+` before `SET` is
deterministic; the one after is greedy with backtracking into the lazy
capture. -/
def setTail (s : Chars) : Option (Chars × Option Chars) := do
  let r ← ws1 s
  let r ← litCI "SET".data r
  greedyWs1 (fun t => setSplit [] t) r

/-- `(.+?)\s+SET\s+…`: the lazy join-condition capture; each candidate end
position is tried left to right until the tail matches. -/
def onSplit : Chars → Chars → Option (Chars × Chars × Option Chars)
  | _, [] => none
  | acc, c :: rest =>
    if dotChar c then
      let acc1 := acc ++ [c]
      match setTail rest with
      | some (sc, wc) => some (acc1, sc, wc)
      | none => onSplit acc1 rest
    else none

/-- The seven captures of the update-join regex (line 59). -/
structure UpdateJoinParts where
  target : Chars
  targetAlias : Chars
  source : Chars
  sourceAlias : Chars
  joinCond : Chars
  setClauses : Chars
  whereCond : Option Chars

/-- `KEYWORD\s+([^\s]+)\s+(\w+)\s+`: a keyword, a greedy non-space token
and a word alias, each followed by mandatory whitespace (so maximal munch
coincides with backtracking). -/
def kwTokenAlias (kw : Chars) (s : Chars) : Option (Chars × Chars × Chars) := do
  let r ← litCI kw s
  let r ← ws1 r
  let (tok, r) ← many1 (fun c => !wsChar c) r
  let r ← ws1 r
  let (al, r) ← many1 wordChar r
  let r ← ws1 r
  pure (tok, al, r)

/-- One positional attempt of
`/UPDATE\s+([^\s]+)\s+(\w+)\s+JOIN\s+([^\s]+)\s+(\w+)\s+ON\s+(.+?)\s+SET\s+(.+?)(?:\s+WHERE\s+(.+))?$/i`
(line 59).  The `\s+` after `ON` is maximal: a shorter run only prepends
whitespace or a newline to the lazy capture and creates no new ` SET `
split. -/
def matchUpdateJoinAt (s : Chars) : Option UpdateJoinParts := do
  let (target, targetAlias, r) ← kwTokenAlias "UPDATE".data s
  let (source, sourceAlias, r) ← kwTokenAlias "JOIN".data r
  let r ← litCI "ON".data r
  let r ← ws1 r
  let (joinCond, setClauses, whereCond) ← onSplit [] r
  pure { target := target, targetAlias := targetAlias, source := source,
         sourceAlias := sourceAlias, joinCond := joinCond,
         setClauses := setClauses, whereCond := whereCond }

/-- `transformUpdateWithJoin` (lines 57-70): the leftmost match of the
update-join regex rebuilt as a merge statement; no match returns the input
unchanged. -/
def transformUpdateWithJoinCore (sql : Chars) : Chars :=
  match findFirstMap matchUpdateJoinAt sql with
  | none => sql
  | some p =>
    "MERGE INTO ".data ++ p.target ++ " ".data ++ p.targetAlias ++ "\n".data ++
      "USING ".data ++ p.source ++ " ".data ++ p.sourceAlias ++ "\n".data ++
      "ON ".data ++ p.joinCond ++ "\n".data ++
      "WHEN MATCHED ".data ++
      (match p.whereCond with
       | some w => "AND ".data ++ w ++ " ".data
       | none => []) ++
      "THEN UPDATE SET ".data ++ p.setClauses

/-- `transformUpdate` (lines 49-55): dispatch on a case-sensitive `JOIN`
substring test. -/
def transformUpdate (sql : String) : String :=
  if includesStr "JOIN".data sql.data then
    String.mk (transformUpdateWithJoinCore sql.data)
  else sql

end DMLTransformer

namespace Lib

/-! The class `HiveToSnowflakeConverter` of `src/lib/converter.ts`: a
self-contained pipeline over the whole input with an instance-level
warning accumulator (`this.warnings`), threaded here as an explicit list
that each warning site appends to.  Matchers whose pattern text coincides
with one already embedded for `src/converter/index.ts` are reused from the
`Converter` namespace. -/

/-- The warning strings pushed by the class. -/
def clusteredMsg : String := "Snowflake doesn't support CLUSTER BY. Removing it."

def overwriteMsg : String :=
  "Snowflake doesn't support INSERT OVERWRITE. Converting to INSERT INTO."

def lateralMsg : String := "Converting LATERAL VIEW EXPLODE to Snowflake's FLATTEN."

def rangeMsg : String := "Converting RANGE BETWEEN to ROWS BETWEEN for window functions."

def orderByMsg : String := "Multiple ORDER BY clauses found. Keeping only the last one."

/-! #### `preprocessSQL` (lines 32-41) -/

/-- The hint pattern of line 37, which also lists `SKEWJOIN`
(case-sensitive, with the empty replacement). -/
def tryHiveHint (s : Chars) : Option (Chars × Chars) := do
  let r ← litCS "/*+".data s
  let r := ws0 r
  let r ← litCS "MAPJOIN".data r <|> litCS "STREAMTABLE".data r <|>
    litCS "BROADCAST".data r <|> litCS "SKEWJOIN".data r
  let r ← litCS "(".data r
  let r := r.dropWhile (fun c => !(c == ')'))
  let r ← litCS ")".data r
  let r := ws0 r
  let r ← litCS "*/".data r
  pure ([], r)

/-- `/\s+/g` → `' '`. -/
def tryWsRun (s : Chars) : Option (Chars × Chars) :=
  (many1 wsChar s).map (fun p => (" ".data, p.2))

/-- `preprocessSQL`: SET-statement removal (the same anchored pattern as
`src/converter/index.ts`), hint removal, whitespace collapse and trim. -/
def preprocessSQL (sql : Chars) : Chars :=
  trimChars (replaceAll tryWsRun (replaceAll tryHiveHint
    (Converter.removeSetLines sql)))

/-! #### `convertCreateTable` (lines 43-66) -/

/-- `/CLUSTERED\s+BY/i`, the warning test of line 54. -/
def matchClusteredTest (s : Chars) : Option Unit := do
  let r ← litCI "CLUSTERED".data s
  let r ← ws1 r
  let _ ← litCI "BY".data r
  pure ()

/-- `/PARTITIONED\s+BY\s*\([^)]+\)/gi` with the empty replacement
(line 51: the clause is removed, not folded). -/
def tryPartitionedByRemove (s : Chars) : Option (Chars × Chars) :=
  (Converter.matchPartitionedBy s).map (fun p => ([], p.2))

/-- `/LOCATION\s+\'[^\']+\'/gi` (single quotes only here) with the empty
replacement. -/
def tryLocationSq (s : Chars) : Option (Chars × Chars) := do
  let r ← litCI "LOCATION".data s
  let r ← ws1 r
  let r ← litCS ['\''] r
  let (_, r) ← many1 (fun c => !(c == '\'')) r
  let r ← litCS ['\''] r
  pure ([], r)

def convertCreateTable (sql : Chars) (ws : List String) : Chars × List String :=
  let sql := replaceAll Converter.tryCreateHeader sql
  let sql := replaceAll tryPartitionedByRemove sql
  let p :=
    if testRe matchClusteredTest sql then
      (replaceAll (Converter.tryClusteredBuckets []) sql, ws ++ [clusteredMsg])
    else (sql, ws)
  let sql := replaceAll Converter.tryStoredAs p.1
  let sql := replaceAll Converter.tryRowFormat sql
  let sql := replaceAll tryLocationSq sql
  let sql := replaceAll Converter.tryTblProperties sql
  (sql, p.2)

/-! #### `convertInsertStatements` (lines 68-82) -/

/-- `/INSERT\s+INTO\s+TABLE\s+/gi` → `'INSERT INTO '`. -/
def tryInsertIntoTable (s : Chars) : Option (Chars × Chars) := do
  let r ← litCI "INSERT".data s
  let r ← ws1 r
  let r ← litCI "INTO".data r
  let r ← ws1 r
  let r ← litCI "TABLE".data r
  let r ← ws1 r
  pure ("INSERT INTO ".data, r)

/-- `/INSERT\s+OVERWRITE/i`, the warning test of line 73. -/
def matchInsertOverwriteTest (s : Chars) : Option Unit := do
  let r ← litCI "INSERT".data s
  let r ← ws1 r
  let _ ← litCI "OVERWRITE".data r
  pure ()

/-- `/INSERT\s+OVERWRITE\s+(?:TABLE\s+)?(\w+)/gi` → `'INSERT INTO $1'`
(line 75): overwrite is rewritten to a plain append insert. -/
def tryInsertOverwriteToInto (s : Chars) : Option (Chars × Chars) := do
  let r ← litCI "INSERT".data s
  let r ← ws1 r
  let r ← litCI "OVERWRITE".data r
  let r ← ws1 r
  Converter.tableOptName "INSERT INTO ".data r

def convertInsertStatements (sql : Chars) (ws : List String) : Chars × List String :=
  let sql := replaceAll tryInsertIntoTable sql
  let p :=
    if testRe matchInsertOverwriteTest sql then
      (replaceAll tryInsertOverwriteToInto sql, ws ++ [overwriteMsg])
    else (sql, ws)
  (replaceAll tryPartitionClause p.1, p.2)

/-! #### `convertFunctions` (lines 84-116): no warning is pushed here. -/

/-- `\s*,\s*'1970-01-01'\s*,\s*` — the middle of the `DATEDIFF`
pattern. -/
def datediffMid (s : Chars) : Option Chars := do
  let r ← litCS ",".data (ws0 s)
  let r := ws0 r
  let r ← litCS ['\''] r
  let r ← litCS "1970-01-01".data r
  let r ← litCS ['\''] r
  let r ← litCS ",".data (ws0 r)
  pure (ws0 r)

/-- `/DATEDIFF\s*\(\s*SECOND\s*,\s*'1970-01-01'\s*,\s*([^)]+)\)/gi` →
`'DATEDIFF(SECOND, $1, CURRENT_TIMESTAMP())'`. -/
def tryDateDiffEpoch (s : Chars) : Option (Chars × Chars) := do
  let r ← litCI "DATEDIFF".data s
  let r := ws0 r
  let r ← litCS "(".data r
  let r := ws0 r
  let r ← litCI "SECOND".data r
  let r ← datediffMid r
  let (arg, r) ← many1 (fun c => !(c == ')')) r
  let r ← litCS ")".data r
  pure ("DATEDIFF(SECOND, ".data ++ arg ++ ", CURRENT_TIMESTAMP())".data, r)

/-- `/date_add\(([^,]+),\s*(\d+)\)/gi` → `'DATEADD(DAY, $2, $1)'` and the
`date_sub` variant (upper-case replacements here, unlike
`src/converter/index.ts`). -/
def tryDateShift (name : Chars) (neg : Bool) (s : Chars) : Option (Chars × Chars) := do
  let r ← litCI name s
  let r ← litCS "(".data r
  let (arg, r) ← many1 (fun c => !(c == ',')) r
  let r ← litCS ",".data r
  let r := ws0 r
  let (d, r) ← many1 digitChar r
  let r ← litCS ")".data r
  pure ("DATEADD(DAY, ".data ++ (if neg then "-".data else []) ++ d ++
    ", ".data ++ arg ++ ")".data, r)

/-- `/json_tuple\(([^,]+),\s*([^)]+)\)/gi` with the callback of lines
102-108: one `GET_PATH(PARSE_JSON(json), 'field')` per trimmed
comma-separated field, joined by `', '`. -/
def tryJsonTuple (s : Chars) : Option (Chars × Chars) := do
  let r ← litCI "json_tuple".data s
  let r ← litCS "(".data r
  let (json, r) ← many1 (fun c => !(c == ',')) r
  let r ← litCS ",".data r
  let r := ws0 r
  let (fields, r) ← many1 (fun c => !(c == ')')) r
  let r ← litCS ")".data r
  let fieldList := (splitOnChar ',' fields).map trimChars
  pure (joinWith ", ".data (fieldList.map (fun f =>
    "GET_PATH(PARSE_JSON(".data ++ json ++ "), '".data ++ f ++ ['\'', ')'])), r)

/-- `/array_agg\(/gi` → `'ARRAY_AGG('`. -/
def tryArrayAggCase (s : Chars) : Option (Chars × Chars) := do
  let r ← litCI "array_agg".data s
  let r ← litCS "(".data r
  pure ("ARRAY_AGG(".data, r)

def convertFunctions (sql : Chars) : Chars :=
  let sql := replaceAll tryDateDiffEpoch sql
  let sql := replaceAll (tryDateShift "date_add".data false) sql
  let sql := replaceAll (tryDateShift "date_sub".data true) sql
  let sql := replaceAll tryJsonTuple sql
  let sql := replaceAll tryArrayAggCase sql
  let sql := replaceAll (Converter.tryCollect "collect_set".data "ARRAY_AGG(DISTINCT ".data) sql
  replaceAll (Converter.tryCollect "collect_list".data "ARRAY_AGG(".data) sql

/-! #### `convertLateralView` (lines 118-128) -/

/-- `/LATERAL\s+VIEW\s+EXPLODE/i`, the warning test of line 120. -/
def matchLateralTest (s : Chars) : Option Unit := do
  let r ← litCI "LATERAL".data s
  let r ← ws1 r
  let r ← litCI "VIEW".data r
  let r ← ws1 r
  let _ ← litCI "EXPLODE".data r
  pure ()

def convertLateralView (sql : Chars) (ws : List String) : Chars × List String :=
  if testRe matchLateralTest sql then
    (replaceAll Converter.tryLateralView sql, ws ++ [lateralMsg])
  else (sql, ws)

/-! #### `convertWindowFunctions` (lines 130-140) -/

/-- `/RANGE\s+BETWEEN/i`, the warning test of line 132. -/
def matchRangeTest (s : Chars) : Option Unit := do
  let r ← litCI "RANGE".data s
  let r ← ws1 r
  let _ ← litCI "BETWEEN".data r
  pure ()

/-- The greedy backtracking of `([^)]+)\s+AND\s+([^)]+)`: within the
maximal run of non-`)` characters, the first capture is tried from the
longest length down; for each, `\s+AND\s+` must follow and the second
capture takes what remains of the run (backtracking into the trailing
`\s+` when necessary). -/
def rangeSplitFrom : Nat → Chars → Option (Chars × Chars)
  | 0, _ => none
  | e + 1, run =>
    match (do
        let t ← ws1 (run.drop (e + 1))
        let t ← litCI "AND".data t
        DMLTransformer.greedyWs1 (fun u => if u.isEmpty then none else some u) t) with
    | some g2 => some (run.take (e + 1), g2)
    | none => rangeSplitFrom e run

/-- `/RANGE\s+BETWEEN\s+([^)]+)\s+AND\s+([^)]+)/gi` →
`'ROWS BETWEEN $1 AND $2'`.  The `\s+` after `BETWEEN` is maximal: a
shorter run only prepends whitespace to the first capture and creates no
new `AND` split. -/
def tryRangeBetweenAny (s : Chars) : Option (Chars × Chars) := do
  let r ← litCI "RANGE".data s
  let r ← ws1 r
  let r ← litCI "BETWEEN".data r
  let r ← ws1 r
  let run := r.takeWhile (fun c => !(c == ')'))
  let (g1, g2) ← rangeSplitFrom run.length run
  pure ("ROWS BETWEEN ".data ++ g1 ++ " AND ".data ++ g2, r.drop run.length)

def convertWindowFunctions (sql : Chars) (ws : List String) : Chars × List String :=
  if testRe matchRangeTest sql then
    (replaceAll tryRangeBetweenAny sql, ws ++ [rangeMsg])
  else (sql, ws)

/-! #### `convertOrderBy` (lines 142-152) -/

/-- `/ORDER\s+BY/i` as a length matcher (used by both the global count of
line 144 and the split of line 147; `String.split` splits at every match
whether or not the regex carries the `g` flag). -/
def matchOrderBy (s : Chars) : Option Nat := do
  let r ← litCI "ORDER".data s
  let r ← ws1 r
  let r ← litCI "BY".data r
  pure (s.length - r.length)

/-- `convertOrderBy`: with more than one `ORDER BY` occurrence, keep
`parts[0] + 'ORDER BY' + parts[parts.length-1]` and push the warning;
otherwise return the input unchanged. -/
def convertOrderBy (sql : Chars) (ws : List String) : Chars × List String :=
  let orderByCount := countBy matchOrderBy sql
  if orderByCount > 1 then
    let parts := splitBy matchOrderBy sql
    (parts.headD [] ++ "ORDER BY".data ++ lastD parts, ws ++ [orderByMsg])
  else (sql, ws)

/-! #### `convertDataTypes` (lines 154-184): word-boundary-anchored
replacements in `Object.entries` insertion order, then the generic
complex types. -/

def libTypeMap : List (Chars × Chars) :=
  [("STRING".data, "VARCHAR".data),
   ("INT".data, "NUMBER(38,0)".data),
   ("INTEGER".data, "NUMBER(38,0)".data),
   ("BIGINT".data, "NUMBER(38,0)".data),
   ("SMALLINT".data, "NUMBER(5,0)".data),
   ("TINYINT".data, "NUMBER(3,0)".data),
   ("DOUBLE".data, "DOUBLE".data),
   ("FLOAT".data, "FLOAT".data),
   ("BOOLEAN".data, "BOOLEAN".data),
   ("BINARY".data, "BINARY".data),
   ("TIMESTAMP".data, "TIMESTAMP_NTZ".data),
   ("DATE".data, "DATE".data)]

def convertDataTypes (sql : Chars) : Chars :=
  let sql := libTypeMap.foldl (fun acc p => replaceAllP (tryWordRepl p.1 p.2) acc) sql
  let sql := replaceAll (Converter.tryAngleType "ARRAY".data "ARRAY".data) sql
  let sql := replaceAll (Converter.tryAngleType "MAP".data "OBJECT".data) sql
  replaceAll (Converter.tryAngleType "STRUCT".data "OBJECT".data) sql

/-! #### `formatSQL` (lines 186-227) -/

/-- The keyword list of lines 187-195, capitalised in place via
`\bKEYWORD\b` (case-insensitive). -/
def formatKeywords : List Chars :=
  ["SELECT".data, "FROM".data, "WHERE".data, "GROUP BY".data, "ORDER BY".data,
   "HAVING".data, "JOIN".data, "LEFT".data, "RIGHT".data, "INNER".data,
   "OUTER".data, "ON".data, "AND".data, "OR".data, "IN".data, "NOT".data,
   "EXISTS".data, "BETWEEN".data, "UNION".data, "ALL".data, "CREATE".data,
   "TABLE".data, "INSERT".data, "INTO".data, "VALUES".data, "UPDATE".data,
   "DELETE".data, "ALTER".data, "DROP".data, "CROSS JOIN".data,
   "FLATTEN".data, "ARRAY_AGG".data, "DISTINCT".data, "PARSE_JSON".data,
   "GET_PATH".data, "DATEDIFF".data, "DATEADD".data]

/-- `\bKW\b` with `'\n$1'`: the capture is the matched text itself, case
preserved. -/
def tryWordNl (pat : Chars) (prev : Option Char) (s : Chars) :
    Option (Chars × Nat) :=
  let prevWord := match prev with | some p => wordChar p | none => false
  if prevWord then none
  else
    match litCI pat s with
    | none => none
    | some r =>
      let nextWord := match r.head? with | some nc => wordChar nc | none => false
      if nextWord then none
      else
        let len := s.length - r.length
        some ("\n".data ++ s.take len, len)

/-- The major-clause break of line 209:
`\b(FROM|WHERE|GROUP BY|HAVING|ORDER BY|LIMIT)\b` (global,
case-insensitive) → `'\n$1'`, alternatives in order. -/
def tryMajorKw (prev : Option Char) (s : Chars) : Option (Chars × Nat) :=
  tryWordNl "FROM".data prev s <|> tryWordNl "WHERE".data prev s <|>
  tryWordNl "GROUP BY".data prev s <|> tryWordNl "HAVING".data prev s <|>
  tryWordNl "ORDER BY".data prev s <|> tryWordNl "LIMIT".data prev s

/-- One alternative of the join break's optional group followed by
`\s*JOIN\b`. -/
def joinAltLen (kw : Chars) (s : Chars) : Option Nat := do
  let r ← litCI kw s
  let r := ws0 r
  let r ← litCI "JOIN".data r
  let nextWord := match r.head? with | some nc => wordChar nc | none => false
  if nextWord then none else pure (s.length - r.length)

/-- The join break of line 210:
`\b(LEFT|RIGHT|INNER|OUTER|CROSS)?\s*JOIN\b` (global, case-insensitive) →
`'\n$&'`.  With the group present the leading boundary needs a non-word
predecessor; with it empty the boundary sits before `\s*`, so a non-empty
whitespace run needs a word predecessor and an empty one a non-word
predecessor. -/
def tryJoinKw (prev : Option Char) (s : Chars) : Option (Chars × Nat) :=
  let prevWord := match prev with | some p => wordChar p | none => false
  let withGroup : Option Nat :=
    if prevWord then none
    else
      joinAltLen "LEFT".data s <|> joinAltLen "RIGHT".data s <|>
      joinAltLen "INNER".data s <|> joinAltLen "OUTER".data s <|>
      joinAltLen "CROSS".data s
  match withGroup with
  | some len => some ("\n".data ++ s.take len, len)
  | none =>
    let wsRun := s.takeWhile wsChar
    if wsRun.isEmpty then
      if prevWord then none
      else
        match joinAltLen [] s with
        | some len => some ("\n".data ++ s.take len, len)
        | none => none
    else
      if prevWord then
        match (do
            let r ← litCI "JOIN".data (s.drop wsRun.length)
            let nextWord := match r.head? with | some nc => wordChar nc | none => false
            if nextWord then none else pure (s.length - r.length)) with
        | some len => some ("\n".data ++ s.take len, len)
        | none => none
      else none

/-- The comma break of line 211: `,\s*([\w\d_]+)` (global, case-sensitive)
→ `',\n  $1'`. -/
def tryCommaIndent (s : Chars) : Option (Chars × Chars) := do
  let r ← litCS ",".data s
  let r := ws0 r
  let (w, r) ← many1 wordChar r
  pure (",\n  ".data ++ w, r)

def countChar (ch : Char) (s : Chars) : Nat := (s.filter (fun c => c == ch)).length

def indentOf (d : Nat) : Chars := List.flatten (List.replicate d [' ', ' '])

/-- The indentation fold of lines 213-224.  `'  '.repeat(depth)` throws a
`RangeError` for a negative depth, modelled as `none` (the only exception
the class can raise). -/
def indentLinesAux : List Chars → Int → Option (List Chars)
  | [], _ => some []
  | line :: rest, depth =>
    let openCount : Int := countChar '(' line
    let closeCount : Int := countChar ')' line
    if depth < 0 then none
    else
      match indentLinesAux rest (depth + openCount - closeCount) with
      | none => none
      | some tail => some ((indentOf depth.toNat ++ trimChars line) :: tail)

/-- `formatSQL` (lines 186-227): trim, keyword capitalisation, the three
structural replaces, then the indentation fold over the lines. -/
def formatSQL (sql : Chars) : Option Chars :=
  let f := trimChars sql
  let f := formatKeywords.foldl (fun acc kw => replaceAllP (tryWordRepl kw kw) acc) f
  let f := replaceAllP tryMajorKw f
  let f := replaceAllP tryJoinKw f
  let f := replaceAll tryCommaIndent f
  (indentLinesAux (splitOnChar '\n' f) 0).map (joinWith "\n".data)

/-- The stage sequence of `convert` (lines 7-16). -/
def runPipeline (sql0 : Chars) (ws : List String) : Chars × List String :=
  let s1 := preprocessSQL sql0
  let p2 := convertCreateTable s1 ws
  let p3 := convertInsertStatements p2.1 p2.2
  let p4 := convertLateralView (convertFunctions p3.1) p3.2
  let p5 := convertWindowFunctions p4.1 p4.2
  let p6 := convertOrderBy p5.1 p5.2
  (convertDataTypes p6.1, p6.2)

/-- The message of the one exception the pipeline can raise (a `RangeError`
from `'  '.repeat` on a negative depth); its exact text is
engine-specific and exercised by no claim. -/
def formatErrorMsg : String := "Invalid count value"

/-- `convert` (lines 4-30).  The `warnings` argument is the state of the
instance-level accumulator when the call starts: the constructor
initialises it to `[]` and `convert` never resets it, so a second call on
the same instance starts from the first call's final list (which is also
the `warnings` field of the returned record). -/
def convert (hiveSQL : String) (warnings : List String) : ConversionResult :=
  let p := runPipeline hiveSQL.data warnings
  match formatSQL p.1 with
  | some f =>
    { success := true, sql := some (String.mk f), warnings := p.2, errors := [] }
  | none =>
    { success := false, sql := none, warnings := p.2,
      errors := [formatErrorMsg] }

end Lib

/-- Balanced-parenthesis check used to state C6: every prefix has at least
as many `(` as `)`, and they even out at the end. -/
def parenScan : Chars → Int → Option Int
  | [], d => some d
  | c :: cs, d =>
    let d1 := if c == '(' then d + 1 else if c == ')' then d - 1 else d
    if d1 < 0 then none else parenScan cs d1

def parensBalanced (s : String) : Bool := parenScan s.data 0 == some 0

/-- The failing input for C1: a block comment containing `--`, then an
opening parenthesis, a newline and a semicolon inside the parentheses. -/
def c1FailingInput : String := "/* -- */ (\n; )"

/-- A single SELECT statement whose string literal contains a semicolon
(the concrete scenario of C1). -/
def c1QuotedInput : String := "SELECT 'a;b' FROM t"

/-- The text before the first match of a pattern (the whole input when the
pattern does not occur): the specification-side reading of "the text
before the first occurrence". -/
def beforeFirstBy (m : LenMatcher) (s : Chars) : Chars :=
  match firstSplitBy m s with
  | some p => p.1
  | none => s

/-- C2: an input ending inside a string literal. -/
def c2StrInput : String := "SELECT 'abc"

/-- C2: an input ending inside a block comment (with a semicolon inside
it). -/
def c2CommentInput : String := "SELECT 1 /* x ;"

/-- C3: a single-source three-target multi-insert with a bare source-table
token. -/
def c3Input : String :=
  "FROM source_table INSERT INTO TABLE t1 SELECT a WHERE a > 1 INSERT INTO TABLE t2 SELECT b WHERE b > 2 INSERT INTO TABLE t3 SELECT c"

def c3Stmt1 : String := "INSERT INTO TABLE t1 SELECT a WHERE a > 1\nFROM source_table"

def c3Stmt2 : String := "INSERT INTO TABLE t2 SELECT b WHERE b > 2\nFROM source_table"

def c3Stmt3 : String := "INSERT INTO TABLE t3 SELECT c\nFROM source_table"

/-- C3: the same multi-insert with an alias on the source table, which the
`MULTI_INSERT` pattern (`FROM\s+([^\s]+)\s+INSERT…`) fails to match. -/
def c3Alias : String :=
  "FROM source_table st INSERT INTO TABLE t1 SELECT st.a INSERT INTO TABLE t2 SELECT st.b"

/-- C4: the insert-overwrite statement of the claim's concrete scenario. -/
def c4Stmt : String :=
  "INSERT OVERWRITE TABLE t PARTITION(dt='2024-01-01') SELECT * FROM s"

def c4DmlOut : String := "INSERT OVERWRITE INTO t  SELECT * FROM s"

def c4LibOut : String := "INSERT INTO t  SELECT * FROM s"

/-- C5: the create-table statement of the claim's concrete scenario
(without the trailing separator, as the segmenter delivers it). -/
def c5Stmt : String :=
  "CREATE TABLE t (a INT, b STRING) PARTITIONED BY (d STRING) STORED AS ORC"

/-- C5: the full input, separator included. -/
def c5Input : String :=
  "CREATE TABLE t (a INT, b STRING) PARTITIONED BY (d STRING) STORED AS ORC;"

def c5Out : String :=
  "CREATE OR REPLACE TABLE t (a NUMBER(38,0), b VARCHAR) CLUSTER BY (d) "

def c5LibOut : String := "CREATE OR REPLACE TABLE t (a INT, b STRING)  "

/-- C6: an update-join whose SET list and trailing filter contain no
parenthesised subexpression with an embedded `WHERE`. -/
def c6Good : String :=
  "UPDATE t a JOIN s b ON a.id = b.id SET a.x = b.x WHERE b.y > 5"

def c6GoodOut : String :=
  "MERGE INTO t a\nUSING s b\nON a.id = b.id\nWHEN MATCHED AND b.y > 5 THEN UPDATE SET a.x = b.x"

/-- C6: an update-join whose SET list contains a parenthesised subquery
with a `WHERE` inside it. -/
def c6Bad : String :=
  "UPDATE t a JOIN s b ON a.id = b.id SET a.x = (SELECT MAX(v) FROM u WHERE u.id = a.id)"

def c6BadOut : String :=
  "MERGE INTO t a\nUSING s b\nON a.id = b.id\nWHEN MATCHED AND u.id = a.id) THEN UPDATE SET a.x = (SELECT MAX(v) FROM u"

/-- C7: a statement with the claim's value-range frame inside an OVER
clause. -/
def c7Stmt : String :=
  "SELECT SUM(x) OVER (PARTITION BY k ORDER BY t RANGE BETWEEN 10 PRECEDING AND CURRENT ROW) FROM tb"

def c7Input : String :=
  "SELECT SUM(x) OVER (PARTITION BY k ORDER BY t RANGE BETWEEN 10 PRECEDING AND CURRENT ROW) FROM tb;"

def c7Out : String :=
  "SELECT SUM(x) OVER (PARTITION BY k ORDER BY t ROWS BETWEEN 10 PRECEDING AND CURRENT ROW) FROM tb"

/-- C8: an insert statement whose `INTO` keyword embeds the letters
`INT`. -/
def c8Embedded : String := "INSERT INTO t VALUES (1)"

def c8EmbeddedOut : String := "INSERT NUMBER(38,0)O t VALUES (1)"

/-- C8: a select with `INT` standalone and embedded inside
`SUBSTRING`. -/
def c8Mixed : String := "SELECT SUBSTRING(a, 1, 2), CAST(b AS INT) FROM t2"

def c8MixedOut : String := "SELECT SUBSTRING(a, 1, 2), CAST(b AS NUMBER(38,0)) FROM t2"

/-- C9: a first request that produces a warning. -/
def c9In1 : String := "INSERT OVERWRITE TABLE t SELECT 1"

/-- C9: a second request that produces no warning of its own. -/
def c9In2 : String := "SELECT 1"

/-- C10: an input with two `ORDER BY` occurrences. -/
def c10Input : String := "SELECT a FROM t ORDER BY a, b SELECT c FROM u ORDER BY c"

/-- C1: the statement segmenter is claimed to split only at semicolons
outside string literals, comments and parentheses.  The code's comment
handling lacks the guards between the two comment kinds: in
`/* -- */ (\n; )` the `--` inside the block comment raises the
line-comment flag, which then hides the `(` from the depth counter, so the
semicolon at parenthesis depth 1 is treated as a separator and two
statements come back; correct lexing per §4.1 yields one.  (On the quoted
scenario the code does return a single statement.) -/
theorem c1_segmenter_bug :
    Converter.splitStatements c1FailingInput = ["/ --  (", ")"] ∧
    specSplitStatements c1FailingInput = some [c1FailingInput] ∧
    Converter.splitStatements c1QuotedInput = [c1QuotedInput] := by
  refine ⟨by decide, by decide, by decide⟩

/-! ## Properties of the non-overlapping match scan -/

theorem firstSplitBy_rest_lt (m : LenMatcher) :
    ∀ (s b r : Chars), firstSplitBy m s = some (b, r) → r.length < s.length := by
  intro s
  induction s with
  | nil => intro b r h; simp [firstSplitBy] at h
  | cons c cs ih =>
    intro b r h
    simp only [firstSplitBy] at h
    cases hm : m (c :: cs) with
    | some L =>
      rw [hm] at h
      simp only [Option.some.injEq, Prod.mk.injEq] at h
      obtain ⟨hb, hr⟩ := h
      subst hr
      have hmax : 1 ≤ max 1 L := Nat.le_max_left 1 L
      simp only [List.length_drop, List.length_cons]
      omega
    | none =>
      rw [hm] at h
      cases hf : firstSplitBy m cs with
      | none => simp [hf] at h
      | some p =>
        obtain ⟨b', r'⟩ := p
        simp only [hf, Option.map_some', Option.some.injEq, Prod.mk.injEq] at h
        obtain ⟨hb, hr⟩ := h
        subst hr
        have := ih b' r' hf
        simp only [List.length_cons]
        omega

theorem splitByAux_congr (m : LenMatcher) :
    ∀ (n : Nat) (s : Chars), s.length ≤ n →
      splitByAux m n s = splitByAux m s.length s := by
  intro n
  induction n using Nat.strong_induction_on with
  | _ n ih =>
    intro s hs
    cases s with
    | nil => cases n <;> rfl
    | cons c cs =>
      cases n with
      | zero => simp at hs
      | succ k =>
        have hk : cs.length ≤ k := by simpa using hs
        simp only [List.length_cons, splitByAux]
        cases hm : m (c :: cs) with
        | some L =>
          simp only [hm]
          have h1 : ((c :: cs).drop (max 1 L)).length ≤ cs.length := by
            have hmax : 1 ≤ max 1 L := Nat.le_max_left 1 L
            simp only [List.length_drop, List.length_cons]
            omega
          rw [ih k (Nat.lt_succ_self k) _ (le_trans h1 hk),
            ih cs.length (Nat.lt_succ_of_le hk) _ h1]
        | none =>
          simp only [hm]
          rw [ih k (Nat.lt_succ_self k) cs hk]

theorem countByAux_congr (m : LenMatcher) :
    ∀ (n : Nat) (s : Chars), s.length ≤ n →
      countByAux m n s = countByAux m s.length s := by
  intro n
  induction n using Nat.strong_induction_on with
  | _ n ih =>
    intro s hs
    cases s with
    | nil => cases n <;> rfl
    | cons c cs =>
      cases n with
      | zero => simp at hs
      | succ k =>
        have hk : cs.length ≤ k := by simpa using hs
        simp only [List.length_cons, countByAux]
        cases hm : m (c :: cs) with
        | some L =>
          simp only [hm]
          have h1 : ((c :: cs).drop (max 1 L)).length ≤ cs.length := by
            have hmax : 1 ≤ max 1 L := Nat.le_max_left 1 L
            simp only [List.length_drop, List.length_cons]
            omega
          rw [ih k (Nat.lt_succ_self k) _ (le_trans h1 hk),
            ih cs.length (Nat.lt_succ_of_le hk) _ h1]
        | none =>
          simp only [hm]
          rw [ih k (Nat.lt_succ_self k) cs hk]

theorem afterLastByAux_congr (m : LenMatcher) :
    ∀ (n : Nat) (s : Chars), s.length ≤ n →
      afterLastByAux m n s = afterLastBy m s := by
  intro n
  induction n using Nat.strong_induction_on with
  | _ n ih =>
    intro s hs
    cases n with
    | zero =>
      have hz : s = [] := List.length_eq_zero.mp (Nat.le_zero.mp hs)
      subst hz; rfl
    | succ k =>
      cases s with
      | nil => rfl
      | cons c cs =>
        have hk : cs.length ≤ k := by simpa using hs
        simp only [afterLastByAux]
        cases hf : firstSplitBy m (c :: cs) with
        | none =>
          simp only [hf, afterLastBy, List.length_cons, afterLastByAux]
        | some p =>
          obtain ⟨b, r⟩ := p
          have hr : r.length ≤ cs.length := by
            have := firstSplitBy_rest_lt m (c :: cs) b r hf
            simp only [List.length_cons] at this
            omega
          simp only [hf, afterLastBy, List.length_cons, afterLastByAux]
          rw [ih k (Nat.lt_succ_self k) r (le_trans hr hk),
            ih cs.length (Nat.lt_succ_of_le hk) r hr]

theorem splitBy_of_none (m : LenMatcher) :
    ∀ s, firstSplitBy m s = none → splitBy m s = [s] := by
  intro s
  induction s with
  | nil => intro h; rfl
  | cons c cs ih =>
    intro h
    simp only [firstSplitBy] at h
    cases hm : m (c :: cs) with
    | some L => rw [hm] at h; simp at h
    | none =>
      rw [hm] at h
      have hcs : firstSplitBy m cs = none := by
        cases hf : firstSplitBy m cs with
        | none => rfl
        | some p => rw [hf] at h; simp at h
      simp only [splitBy, List.length_cons, splitByAux, hm]
      have : splitByAux m cs.length cs = splitBy m cs := rfl
      rw [this, ih hcs]

theorem splitBy_of_some (m : LenMatcher) :
    ∀ s b r, firstSplitBy m s = some (b, r) → splitBy m s = b :: splitBy m r := by
  intro s
  induction s with
  | nil => intro b r h; simp [firstSplitBy] at h
  | cons c cs ih =>
    intro b r h
    simp only [firstSplitBy] at h
    cases hm : m (c :: cs) with
    | some L =>
      rw [hm] at h
      simp only [Option.some.injEq, Prod.mk.injEq] at h
      obtain ⟨hb, hr⟩ := h
      subst hb; subst hr
      simp only [splitBy, List.length_cons, splitByAux, hm]
      have h1 : ((c :: cs).drop (max 1 L)).length ≤ cs.length := by
        have hmax : 1 ≤ max 1 L := Nat.le_max_left 1 L
        simp only [List.length_drop, List.length_cons]
        omega
      rw [splitByAux_congr m cs.length _ h1]
    | none =>
      rw [hm] at h
      cases hf : firstSplitBy m cs with
      | none => rw [hf] at h; simp at h
      | some p =>
        obtain ⟨b', r'⟩ := p
        rw [hf] at h
        simp only [Option.map_some', Option.some.injEq, Prod.mk.injEq] at h
        obtain ⟨hb, hr⟩ := h
        subst hb; subst hr
        simp only [splitBy, List.length_cons, splitByAux, hm]
        have : splitByAux m cs.length cs = splitBy m cs := rfl
        rw [this, ih b' r' hf]
        rfl

theorem splitBy_ne_nil (m : LenMatcher) (s : Chars) : splitBy m s ≠ [] := by
  cases hf : firstSplitBy m s with
  | none => rw [splitBy_of_none m s hf]; simp
  | some p => rw [splitBy_of_some m s p.1 p.2 (by rw [hf])]; simp

theorem countBy_of_none (m : LenMatcher) (s : Chars)
    (h : firstSplitBy m s = none) : countBy m s = 0 := by
  cases s with
  | nil => rfl
  | cons c cs =>
    simp only [firstSplitBy] at h
    cases hm : m (c :: cs) with
    | some L => rw [hm] at h; simp at h
    | none =>
      rw [hm] at h
      have hcs : firstSplitBy m cs = none := by
        cases hf : firstSplitBy m cs with
        | none => rfl
        | some p => rw [hf] at h; simp at h
      simp only [countBy, List.length_cons, countByAux, hm]
      have : countByAux m cs.length cs = countBy m cs := rfl
      rw [this]
      exact countBy_of_none m cs hcs

theorem countBy_of_some (m : LenMatcher) :
    ∀ s b r, firstSplitBy m s = some (b, r) → countBy m s = countBy m r + 1 := by
  intro s
  induction s with
  | nil => intro b r h; simp [firstSplitBy] at h
  | cons c cs ih =>
    intro b r h
    simp only [firstSplitBy] at h
    cases hm : m (c :: cs) with
    | some L =>
      rw [hm] at h
      simp only [Option.some.injEq, Prod.mk.injEq] at h
      obtain ⟨hb, hr⟩ := h
      subst hr
      simp only [countBy, List.length_cons, countByAux, hm]
      have h1 : ((c :: cs).drop (max 1 L)).length ≤ cs.length := by
        have hmax : 1 ≤ max 1 L := Nat.le_max_left 1 L
        simp only [List.length_drop, List.length_cons]
        omega
      rw [countByAux_congr m cs.length _ h1]
    | none =>
      rw [hm] at h
      cases hf : firstSplitBy m cs with
      | none => rw [hf] at h; simp at h
      | some p =>
        obtain ⟨b', r'⟩ := p
        rw [hf] at h
        simp only [Option.map_some', Option.some.injEq, Prod.mk.injEq] at h
        obtain ⟨hb, hr⟩ := h
        subst hr
        simp only [countBy, List.length_cons, countByAux, hm]
        have : countByAux m cs.length cs = countBy m cs := rfl
        rw [this, ih b' r' hf]
        rfl

theorem afterLastBy_of_none (m : LenMatcher) (s : Chars)
    (h : firstSplitBy m s = none) : afterLastBy m s = none := by
  cases s with
  | nil => rfl
  | cons c cs => simp only [afterLastBy, List.length_cons, afterLastByAux, h]

theorem afterLastBy_of_some (m : LenMatcher) (s b r : Chars)
    (h : firstSplitBy m s = some (b, r)) :
    afterLastBy m s = some ((afterLastBy m r).getD r) := by
  cases s with
  | nil => simp [firstSplitBy] at h
  | cons c cs =>
    have hr : r.length ≤ cs.length := by
      have := firstSplitBy_rest_lt m (c :: cs) b r h
      simp only [List.length_cons] at this
      omega
    simp only [afterLastBy, List.length_cons, afterLastByAux, h]
    rw [afterLastByAux_congr m cs.length r hr]
    rfl

theorem lastD_cons_of_ne_nil (x : Chars) (l : List Chars) (h : l ≠ []) :
    lastD (x :: l) = lastD l := by
  cases l with
  | nil => exact absurd rfl h
  | cons y t => rfl

/-- The last part of the split is the text after the last match (the whole
input when the pattern does not occur). -/
theorem splitBy_lastD (m : LenMatcher) (s : Chars) :
    lastD (splitBy m s) = (afterLastBy m s).getD s := by
  cases hf : firstSplitBy m s with
  | none => rw [splitBy_of_none m s hf, afterLastBy_of_none m s hf]; rfl
  | some p =>
    obtain ⟨b, r⟩ := p
    have hlt := firstSplitBy_rest_lt m s b r hf
    rw [splitBy_of_some m s b r hf, afterLastBy_of_some m s b r hf,
      lastD_cons_of_ne_nil b _ (splitBy_ne_nil m r), splitBy_lastD m r]
    rfl
termination_by s.length
decreasing_by exact hlt

theorem firstSplitBy_of_countBy_pos (m : LenMatcher) (s : Chars)
    (h : 0 < countBy m s) : ∃ b r, firstSplitBy m s = some (b, r) := by
  cases hf : firstSplitBy m s with
  | none => rw [countBy_of_none m s hf] at h; omega
  | some p =>
    obtain ⟨b, r⟩ := p
    exact ⟨b, r, by simp [hf]⟩

/-! ## Warning accumulation in the `Lib` pipeline -/

theorem convertCreateTable_append (sql : Chars) (ws : List String) :
    ∃ d, (Lib.convertCreateTable sql ws).2 = ws ++ d := by
  simp only [Lib.convertCreateTable]
  split
  · exact ⟨[Lib.clusteredMsg], rfl⟩
  · exact ⟨[], by simp⟩

theorem convertInsertStatements_append (sql : Chars) (ws : List String) :
    ∃ d, (Lib.convertInsertStatements sql ws).2 = ws ++ d := by
  simp only [Lib.convertInsertStatements]
  split
  · exact ⟨[Lib.overwriteMsg], rfl⟩
  · exact ⟨[], by simp⟩

theorem convertLateralView_append (sql : Chars) (ws : List String) :
    ∃ d, (Lib.convertLateralView sql ws).2 = ws ++ d := by
  simp only [Lib.convertLateralView]
  split
  · exact ⟨[Lib.lateralMsg], rfl⟩
  · exact ⟨[], by simp⟩

theorem convertWindowFunctions_append (sql : Chars) (ws : List String) :
    ∃ d, (Lib.convertWindowFunctions sql ws).2 = ws ++ d := by
  simp only [Lib.convertWindowFunctions]
  split
  · exact ⟨[Lib.rangeMsg], rfl⟩
  · exact ⟨[], by simp⟩

theorem convertOrderBy_append (sql : Chars) (ws : List String) :
    ∃ d, (Lib.convertOrderBy sql ws).2 = ws ++ d := by
  simp only [Lib.convertOrderBy]
  split
  · exact ⟨[Lib.orderByMsg], rfl⟩
  · exact ⟨[], by simp⟩

theorem runPipeline_append (s : Chars) (ws : List String) :
    ∃ d, (Lib.runPipeline s ws).2 = ws ++ d := by
  simp only [Lib.runPipeline]
  obtain ⟨d2, h2⟩ := convertCreateTable_append (Lib.preprocessSQL s) ws
  obtain ⟨d3, h3⟩ := convertInsertStatements_append
    (Lib.convertCreateTable (Lib.preprocessSQL s) ws).1
    (Lib.convertCreateTable (Lib.preprocessSQL s) ws).2
  obtain ⟨d4, h4⟩ := convertLateralView_append
    (Lib.convertFunctions (Lib.convertInsertStatements
      (Lib.convertCreateTable (Lib.preprocessSQL s) ws).1
      (Lib.convertCreateTable (Lib.preprocessSQL s) ws).2).1)
    (Lib.convertInsertStatements
      (Lib.convertCreateTable (Lib.preprocessSQL s) ws).1
      (Lib.convertCreateTable (Lib.preprocessSQL s) ws).2).2
  obtain ⟨d5, h5⟩ := convertWindowFunctions_append
    (Lib.convertLateralView (Lib.convertFunctions (Lib.convertInsertStatements
      (Lib.convertCreateTable (Lib.preprocessSQL s) ws).1
      (Lib.convertCreateTable (Lib.preprocessSQL s) ws).2).1)
      (Lib.convertInsertStatements
        (Lib.convertCreateTable (Lib.preprocessSQL s) ws).1
        (Lib.convertCreateTable (Lib.preprocessSQL s) ws).2).2).1
    (Lib.convertLateralView (Lib.convertFunctions (Lib.convertInsertStatements
      (Lib.convertCreateTable (Lib.preprocessSQL s) ws).1
      (Lib.convertCreateTable (Lib.preprocessSQL s) ws).2).1)
      (Lib.convertInsertStatements
        (Lib.convertCreateTable (Lib.preprocessSQL s) ws).1
        (Lib.convertCreateTable (Lib.preprocessSQL s) ws).2).2).2
  obtain ⟨d6, h6⟩ := convertOrderBy_append
    (Lib.convertWindowFunctions (Lib.convertLateralView (Lib.convertFunctions
      (Lib.convertInsertStatements
        (Lib.convertCreateTable (Lib.preprocessSQL s) ws).1
        (Lib.convertCreateTable (Lib.preprocessSQL s) ws).2).1)
      (Lib.convertInsertStatements
        (Lib.convertCreateTable (Lib.preprocessSQL s) ws).1
        (Lib.convertCreateTable (Lib.preprocessSQL s) ws).2).2).1
      (Lib.convertLateralView (Lib.convertFunctions (Lib.convertInsertStatements
        (Lib.convertCreateTable (Lib.preprocessSQL s) ws).1
        (Lib.convertCreateTable (Lib.preprocessSQL s) ws).2).1)
        (Lib.convertInsertStatements
          (Lib.convertCreateTable (Lib.preprocessSQL s) ws).1
          (Lib.convertCreateTable (Lib.preprocessSQL s) ws).2).2).2).1
    (Lib.convertWindowFunctions (Lib.convertLateralView (Lib.convertFunctions
      (Lib.convertInsertStatements
        (Lib.convertCreateTable (Lib.preprocessSQL s) ws).1
        (Lib.convertCreateTable (Lib.preprocessSQL s) ws).2).1)
      (Lib.convertInsertStatements
        (Lib.convertCreateTable (Lib.preprocessSQL s) ws).1
        (Lib.convertCreateTable (Lib.preprocessSQL s) ws).2).2).1
      (Lib.convertLateralView (Lib.convertFunctions (Lib.convertInsertStatements
        (Lib.convertCreateTable (Lib.preprocessSQL s) ws).1
        (Lib.convertCreateTable (Lib.preprocessSQL s) ws).2).1)
        (Lib.convertInsertStatements
          (Lib.convertCreateTable (Lib.preprocessSQL s) ws).1
          (Lib.convertCreateTable (Lib.preprocessSQL s) ws).2).2).2).2
  refine ⟨d2 ++ d3 ++ d4 ++ d5 ++ d6, ?_⟩
  rw [h6, h5, h4, h3, h2]
  simp [List.append_assoc]

/-! ## The claims -/

/-- C2 (counterexample): on inputs that end inside a string literal or a
block comment the conversion does not abort — `convert` reports success
and returns output text, contradicting the claimed fatal lexical error. -/
theorem c2_unterminated_counterexample :
    (Converter.convert c2StrInput).success = true ∧
    (Converter.convert c2StrInput).sql ≠ none ∧
    (Converter.convert c2CommentInput).success = true ∧
    (Converter.convert c2CommentInput).sql ≠ none := by
  refine ⟨rfl, by decide, rfl, by decide⟩

/-- C2 (amended): the conversion never aborts — every input converts with
`success = true` and an empty error list; an unterminated string literal
or block comment is silently auto-closed at end-of-input and the partial
statement is carried into the output (with the character after a block
comment opener dropped by the scanner's index skip). -/
theorem c2_convert_never_fails :
    (∀ s : String, (Converter.convert s).success = true) ∧
    (∀ s : String, (Converter.convert s).errors = []) ∧
    (Converter.convert c2StrInput).sql = some c2StrInput ∧
    (Converter.convert c2CommentInput).sql = some "SELECT 1 / x ;" := by
  refine ⟨fun s => rfl, fun s => rfl, by decide, by decide⟩

/-- C3 (counterexample): a single-source multi-target insert whose shared
FROM clause carries an alias is not fanned out at all — the `MULTI_INSERT`
pattern requires the token after the source to be `INSERT`, so the
transformer returns the input unchanged (one statement, not N). -/
theorem c3_alias_counterexample :
    DMLTransformer.transformInsert c3Alias = c3Alias ∧
    startsWithStr "INSERT".data (DMLTransformer.transformInsert c3Alias).data = false := by
  refine ⟨by decide, by decide⟩

/-- C3 (amended): when the shared FROM clause is a single bare token
immediately followed by the first INSERT clause, the transformer fans the
statement out into exactly N insert statements in original clause order,
each ending with `FROM` and that token. -/
theorem c3_multiinsert_fanout :
    DMLTransformer.transformInsert c3Input =
      c3Stmt1 ++ ";\n\n" ++ c3Stmt2 ++ ";\n\n" ++ c3Stmt3 := by
  decide

/-- C4 (counterexample): on the claim's concrete insert-overwrite
statement the lib converter produces a plain `INSERT INTO` (append
semantics, no `OVERWRITE` in the output) and its only warning is the
unsupported-overwrite notice — no warning about the dropped literal
partition value is raised. -/
theorem c4_partition_warning_counterexample :
    Lib.convertInsertStatements c4Stmt.data [] = (c4LibOut.data, [Lib.overwriteMsg]) ∧
    includesStr "OVERWRITE".data c4LibOut.data = false := by
  refine ⟨by decide, by decide⟩

/-- C4 (amended): the DML transformer rewrites `INSERT OVERWRITE TABLE` to
`INSERT OVERWRITE INTO` and silently drops the partition clause (it has no
warning channel); the lib converter instead rewrites it to `INSERT INTO`
with an unsupported-overwrite warning; neither warns about the dropped
literal partition value. -/
theorem c4_insert_overwrite_behavior :
    DMLTransformer.transformInsert c4Stmt = c4DmlOut ∧
    Lib.convertInsertStatements c4Stmt.data [] = (c4LibOut.data, [Lib.overwriteMsg]) := by
  refine ⟨by decide, by decide⟩

/-- C5 (counterexample): on the claim's create-table scenario the
converter emits no warning at all, and the output contains neither a
mapped columnar storage format nor any storage clause — `STORED AS ORC`
is stripped, not mapped. -/
theorem c5_create_table_counterexample :
    Converter.convertCreateTable c5Stmt.data = c5Out.data ∧
    includesStr "PARQUET".data c5Out.data = false ∧
    includesStr "FILE_FORMAT".data c5Out.data = false ∧
    (Converter.convert c5Input).warnings = [] := by
  refine ⟨by decide, by decide, by decide, rfl⟩

/-- C5 (amended): the `src/converter/index.ts` path folds the partition
column into `CLUSTER BY (d)` and maps the column types, but strips the
storage clause without mapping it and emits no warning; the lib converter
removes the `PARTITIONED BY` clause entirely (no fold) and also emits no
warning here. -/
theorem c5_create_table_behavior :
    Converter.convertCreateTable c5Stmt.data = c5Out.data ∧
    Lib.convertCreateTable c5Stmt.data [] = (c5LibOut.data, []) := by
  refine ⟨by decide, by decide⟩

/-- C6 (counterexample): a `WHERE` inside a parenthesised subquery of the
SET list is taken for the trailing filter, so the rewritten merge has
mispaired parentheses although the input was balanced. -/
theorem c6_update_join_counterexample :
    DMLTransformer.transformUpdate c6Bad = c6BadOut ∧
    parensBalanced c6Bad = true ∧
    parensBalanced c6BadOut = false := by
  refine ⟨by decide, by decide, by decide⟩

/-- C6 (amended): when neither the SET list nor the conditions embed a
` SET ` or ` WHERE ` keyword inside a subexpression, the update-join is
rewritten to a merge with the join condition as the match condition, the
set list as the matched update and the trailing filter as an additional
matched-branch condition, parentheses intact. -/
theorem c6_update_join_merge :
    DMLTransformer.transformUpdate c6Good = c6GoodOut ∧
    parensBalanced c6GoodOut = true := by
  refine ⟨by decide, by decide⟩

/-- C7 (counterexample): the `src/converter/index.ts` converter rewrites
the claim's value-range frame to a row-count frame but emits no warning
(its warning list is constantly empty). -/
theorem c7_range_frame_counterexample :
    Converter.convertWindowFunctions c7Stmt.data = c7Out.data ∧
    includesStr "ROWS BETWEEN".data c7Out.data = true ∧
    (Converter.convert c7Input).warnings = [] := by
  refine ⟨by decide, by decide, rfl⟩

/-- C7 (amended): both converters perform the rewrite on the claim's
example; the lib converter accompanies it with the approximate-semantics
warning, the index converter with none. -/
theorem c7_range_frame_behavior :
    Lib.convertWindowFunctions c7Stmt.data [] = (c7Out.data, [Lib.rangeMsg]) ∧
    Converter.convertWindowFunctions c7Stmt.data = c7Out.data := by
  refine ⟨by decide, by decide⟩

/-- C8 (counterexample): the `src/converter/index.ts` type chain has no
word boundaries — the letters `INT` inside the keyword `INTO` are
replaced, inventing the output token `NUMBER(38,0)O`. -/
theorem c8_embedded_type_counterexample :
    Converter.convertDataTypes c8Embedded.data = c8EmbeddedOut.data := by
  decide

/-- C8 (amended): the lib converter's type map is word-boundary-anchored:
a standalone `INT` is mapped while `INT` inside `INTO` and `STRING` inside
`SUBSTRING` are left alone. -/
theorem c8_word_boundary_behavior :
    Lib.convertDataTypes c8Mixed.data = c8MixedOut.data ∧
    Lib.convertDataTypes c8Embedded.data = c8Embedded.data := by
  refine ⟨by decide, by decide⟩

/-- C9 (counterexample): the warning list lives on the converter instance
and `convert` never resets it, so a second request processed by the same
converter returns the warning produced for the first request's input
(which produces none of its own, as the fresh-instance run shows). -/
theorem c9_warning_carry_counterexample :
    (Lib.convert c9In1 []).warnings = [Lib.overwriteMsg] ∧
    (Lib.convert c9In2 (Lib.convert c9In1 []).warnings).warnings = [Lib.overwriteMsg] ∧
    (Lib.convert c9In2 []).warnings = [] := by
  refine ⟨by decide, by decide, by decide⟩

/-- C9 (amended): within one request warnings are append-only — every
stage only appends to the list it is given — but the accumulator is
instance-level, so only a fresh converter per request starts from the
empty list. -/
theorem c9_warnings_append_only :
    (∀ (s : String) (ws : List String), ∃ d, (Lib.convert s ws).warnings = ws ++ d) ∧
    (Lib.convert c9In2 []).warnings = [] := by
  constructor
  · intro s ws
    obtain ⟨d, hd⟩ := runPipeline_append s.data ws
    refine ⟨d, ?_⟩
    simp only [Lib.convert]
    cases hf : Lib.formatSQL (Lib.runPipeline s.data ws).1 <;> simp [hf, hd]
  · decide

/-- C10: with two or more `ORDER BY` occurrences, `convertOrderBy` keeps
exactly the text before the first occurrence and the text after the last
occurrence around a literal `ORDER BY`, discarding everything in between,
and appends the only-the-last-kept warning; with at most one occurrence
the input passes through unchanged. -/
theorem c10_convertOrderBy_spec (sql : Chars) (ws : List String) :
    (2 ≤ countBy Lib.matchOrderBy sql →
      Lib.convertOrderBy sql ws =
        (beforeFirstBy Lib.matchOrderBy sql ++ "ORDER BY".data ++
          (afterLastBy Lib.matchOrderBy sql).getD sql, ws ++ [Lib.orderByMsg])) ∧
    (countBy Lib.matchOrderBy sql ≤ 1 → Lib.convertOrderBy sql ws = (sql, ws)) := by
  constructor
  · intro h2
    obtain ⟨b, r, hf⟩ :=
      firstSplitBy_of_countBy_pos Lib.matchOrderBy sql (by omega)
    have hcond : countBy Lib.matchOrderBy sql > 1 := by omega
    simp only [Lib.convertOrderBy, if_pos hcond]
    rw [splitBy_lastD Lib.matchOrderBy sql, splitBy_of_some _ sql b r hf]
    simp [beforeFirstBy, hf]
  · intro h1
    simp only [Lib.convertOrderBy]
    rw [if_neg (by omega)]

/-- C10 (witness): the specification instantiated on a concrete input with
two `ORDER BY` occurrences. -/
theorem c10_convertOrderBy_spec_witness :
    2 ≤ countBy Lib.matchOrderBy c10Input.data ∧
    Lib.convertOrderBy c10Input.data [] =
      (beforeFirstBy Lib.matchOrderBy c10Input.data ++ "ORDER BY".data ++
        (afterLastBy Lib.matchOrderBy c10Input.data).getD c10Input.data,
       [Lib.orderByMsg]) := by
  refine ⟨by decide, ?_⟩
  have h := (c10_convertOrderBy_spec c10Input.data []).1 (by decide)
  simpa using h
